import Mathlib

set_option maxRecDepth 100000

/-!
Verification development for the `install-qt-action` repository
(`src/action/src/main.ts`; `src/unnamed/part_000` is its compiled
JavaScript with identical logic).

The TypeScript sources are shallowly embedded as executable Lean
definitions:

* raw action inputs are a record of strings (absent inputs = `""`),
  ambient process facts (`process.platform`, `RUNNER_WORKSPACE`,
  `os.release()`, cache restore outcome, aqt capability probe) are
  explicit parameters;
* the `Inputs` constructor becomes the fallible function `mkInputs`
  returning `Except String Config`;
* the `cacheKey` getter becomes the pure function `cacheKey`;
* the observable effects of `run` (installer invocations, exported
  variables, warnings) become `runEffects`;
* version comparison is an embedding of the `compare-versions`
  library (`validateAndParse` / `compareSegments` semantics);
* `crypto.createHash("sha256").update(s).digest("hex")` is a full
  SHA-256 implementation over the UTF-8 bytes of `s`.

Modelling notes (facts the embedding fixes that the code leaves to the
runtime): JavaScript string `length` is the number of UTF-16 units; here
`String.length` counts code points, which agrees on all BMP inputs.
`path.resolve(base, sub)` is modelled as `base ++ "/" ++ sub`; the claims
treat these paths as opaque strings.  Filesystem probes
(`locateQtArchDir`, `toolsPaths`) are assumed to succeed; pip installs
and the apt-get step produce no tracked effects beyond possible version
parse failures.
-/

instance {ε α : Type} [DecidableEq ε] [DecidableEq α] : DecidableEq (Except ε α) := fun a b =>
  match a, b with
  | .error e1, .error e2 =>
    if h : e1 = e2 then .isTrue (by rw [h]) else .isFalse (by simp [h])
  | .error _, .ok _ => .isFalse (by simp)
  | .ok _, .error _ => .isFalse (by simp)
  | .ok a1, .ok a2 =>
    if h : a1 = a2 then .isTrue (by rw [h]) else .isFalse (by simp [h])

/-! ## JavaScript string primitives -/

/-- `s.split(sep)` on character lists, JavaScript semantics:
splitting the empty list yields one empty part, a separator at either
end yields an empty part there. -/
def jsSplitCh (sep : Char) : List Char → List (List Char)
  | [] => [[]]
  | c :: cs =>
    let rest := jsSplitCh sep cs
    if c = sep then [] :: rest
    else
      match rest with
      | [] => [[c]]
      | r :: rs => (c :: r) :: rs

/-- `s.split(sep)` for a one-character separator (the source only splits
on `" "` and `"."` and `"\n"`). -/
def jsSplit (s : String) (sep : Char) : List String :=
  (jsSplitCh sep s.data).map (fun l => String.mk l)

/-- Character-wise string map. -/
def mapChars (f : Char → Char) (s : String) : String :=
  String.mk (s.data.map f)

/-- `s.replace(/,/g, "-")`. -/
def commaToDash (s : String) : String :=
  mapChars (fun c => if c = ',' then '-' else c) s

/-- `s.replace(/,/g, " ")` (used on each tool identifier). -/
def commaToSpace (s : String) : String :=
  mapChars (fun c => if c = ',' then ' ' else c) s

/-- Substring test on character lists (JavaScript `String.includes`). -/
def containsSub : List Char → List Char → Bool
  | [], pat => pat.isEmpty
  | hay@(_ :: t), pat => pat.isPrefixOf hay || containsSub t pat

/-- `s.includes(sub)`. -/
def containsSubstr (s sub : String) : Bool :=
  containsSub s.data sub.data

/-- Iterating `for (const x of s)` over a JavaScript string yields its
characters as one-character strings. -/
def strChars (s : String) : List String :=
  s.data.map (fun c => String.mk [c])

/-- `s.toLowerCase()` (the inputs it is applied to are ASCII
keywords, where JavaScript and ASCII lowercasing agree). -/
def lowerAscii (s : String) : String :=
  String.mk (s.data.map Char.toLower)

/-! ## The `compare-versions` library

Embedding of `compare(v1, v2, op)` from the `compare-versions` npm
package: `validateAndParse` matches the anchored pattern
`[v^~<>=]*?(\d+)(\.([x*]|\d+)(\.([x*]|\d+)(\.([x*]|\d+))?(-pre)?(+build)?)?)?`
(case-insensitive) and throws on failure; segments compare numerically
with wildcards equal to anything; a missing segment counts as `0`; a
version with a prerelease sorts below the same version without one. -/

/-- A parsed version: exactly four main segments (`none` = wildcard,
missing segments already padded with `some 0`) and an optional
prerelease part list. -/
structure Semver where
  main : List (Option Nat)
  pre : Option (List String)
deriving DecidableEq

def digitsToNat (cs : List Char) : Nat :=
  cs.foldl (fun n c => 10 * n + (c.toNat - 48)) 0

/-- A main segment other than the major: single-character wildcard or a
digit run.  Returns `some none` for a wildcard, `some (some n)` for
digits. -/
def parseSeg (cs : List Char) : Option (Option Nat) :=
  if cs = ['x'] ∨ cs = ['X'] ∨ cs = ['*'] then some Option.none
  else if !cs.isEmpty && cs.all Char.isDigit then some (some (digitsToNat cs))
  else Option.none

/-- Characters allowed in prerelease and build parts: `[\da-z-]` with
the case-insensitive flag. -/
def isPreChar (c : Char) : Bool :=
  c.isAlphanum || c = '-'

/-- A dot-separated list of non-empty `[\da-z-]+` parts. -/
def validDotted (cs : List Char) : Option (List String) :=
  let parts := jsSplitCh '.' cs
  if parts.all (fun p => !p.isEmpty && p.all isPreChar) then
    some (parts.map (fun l => String.mk l))
  else Option.none

/-- `validateAndParse`: `none` models the thrown
`Invalid argument not valid semver` error.  Prerelease and build parts
are only permitted when at least three main segments are present,
exactly as in the library's regular expression. -/
def parseSemver (s : String) : Option Semver :=
  let cs := s.data.dropWhile fun c =>
    c = 'v' || c = 'V' || c = '^' || c = '~' || c = '<' || c = '>' || c = '='
  let beforePlus := cs.takeWhile (fun c => c ≠ '+')
  let plusRest := cs.dropWhile (fun c => c ≠ '+')
  let mainCs := beforePlus.takeWhile (fun c => c ≠ '-')
  let preRest := beforePlus.dropWhile (fun c => c ≠ '-')
  match jsSplitCh '.' mainCs with
  | [] => Option.none
  | s0 :: rest =>
    if rest.length > 3 then Option.none
    else if !(!s0.isEmpty && s0.all Char.isDigit) then Option.none
    else
      match rest.mapM parseSeg with
      | Option.none => Option.none
      | some ms =>
        let main := (some (digitsToNat s0) :: ms) ++ List.replicate (3 - rest.length) (some 0)
        match plusRest, preRest with
        | [], [] => some ⟨main, Option.none⟩
        | _, _ =>
          if rest.length < 2 then Option.none
          else
            let buildOk :=
              match plusRest with
              | [] => true
              | _ :: bs => (validDotted bs).isSome
            match preRest with
            | [] => if buildOk then some ⟨main, Option.none⟩ else Option.none
            | _ :: ps =>
              match validDotted ps with
              | some parts => if buildOk then some ⟨main, some parts⟩ else Option.none
              | Option.none => Option.none

/-- First non-`eq` outcome of a segment-by-segment comparison. -/
def seqCmp : List Ordering → Ordering
  | [] => .eq
  | .eq :: os => seqCmp os
  | o :: _ => o

/-- `compareStrings` on main segments: wildcards equal anything. -/
def cmpNatOpt : Option Nat → Option Nat → Ordering
  | Option.none, _ => .eq
  | _, Option.none => .eq
  | some a, some b => compare a b

def mainCmp (a b : List (Option Nat)) : Ordering :=
  seqCmp (List.zipWith cmpNatOpt a b)

/-- `parseInt(s, 10)` restricted to the prerelease alphabet: an optional
leading minus sign followed by a longest digit prefix; `none` models
`NaN`. -/
def jsParseIntPre (s : String) : Option Int :=
  let lead : List Char → Option Nat := fun cs =>
    let ds := cs.takeWhile Char.isDigit
    if ds.isEmpty then Option.none else some (digitsToNat ds)
  match s.data with
  | '-' :: rest => (lead rest).map (fun n => -(n : Int))
  | cs => (lead cs).map (fun n => (n : Int))

/-- Lexicographic comparison of character lists by code point
(JavaScript string relational operators on BMP strings). -/
def lexCmp : List Char → List Char → Ordering
  | [], [] => .eq
  | [], _ :: _ => .lt
  | _ :: _, [] => .gt
  | a :: as, b :: bs =>
    if a.val < b.val then .lt
    else if b.val < a.val then .gt
    else lexCmp as bs

def strCmpJS (a b : String) : Ordering :=
  lexCmp a.data b.data

def isWildStr (s : String) : Bool :=
  s = "x" || s = "X" || s = "*"

/-- `compareStrings` on prerelease parts: wildcard short-circuit, then
`tryParse`/`forceType` (numbers compare numerically, a number against a
string compares the number's decimal representation as a string). -/
def prePartCmp (a b : String) : Ordering :=
  if isWildStr a || isWildStr b then .eq
  else
    match jsParseIntPre a, jsParseIntPre b with
    | some m, some n => compare m n
    | some m, Option.none => strCmpJS (toString m) b
    | Option.none, some n => strCmpJS a (toString n)
    | Option.none, Option.none => strCmpJS a b

/-- `compareSegments` on prerelease lists: up to the longer length,
missing parts count as `"0"`. -/
def preListCmp (xs ys : List String) : Ordering :=
  seqCmp ((List.range (max xs.length ys.length)).map
    (fun i => prePartCmp (xs.getD i "0") (ys.getD i "0")))

/-- `compareVersions(v1, v2)` on parsed versions. -/
def semverCmp (a b : Semver) : Ordering :=
  match mainCmp a.main b.main with
  | .eq =>
    match a.pre, b.pre with
    | some p1, some p2 => preListCmp p1 p2
    | some _, Option.none => .lt
    | Option.none, some _ => .gt
    | Option.none, Option.none => .eq
  | o => o

/-- `operatorResMap`: which comparison outcomes each operator accepts. -/
def opAllows (op : String) (o : Ordering) : Bool :=
  if op = ">" then o = .gt
  else if op = ">=" then o ≠ .lt
  else if op = "<" then o = .lt
  else if op = "<=" then o ≠ .gt
  else o = .eq

def vGe (a b : Semver) : Bool := opAllows ">=" (semverCmp a b)

def vLt (a b : Semver) : Bool := opAllows "<" (semverCmp a b)

/-- `compare(v1, v2, op)`; `none` models a thrown parse error. -/
def compareB (v1 op v2 : String) : Option Bool :=
  match parseSemver v1, parseSemver v2 with
  | some a, some b => some (opAllows op (semverCmp a b))
  | _, _ => Option.none

/-- The wrapper `compareVersions(v1, op, v2)` from `main.ts`, with the
library's thrown error materialised in `Except`. -/
def cmpE (v1 op v2 : String) : Except String Bool :=
  match parseSemver v1 with
  | Option.none => .error ("Invalid argument not valid semver ('" ++ v1 ++ "' received)")
  | some a =>
    match parseSemver v2 with
    | Option.none => .error ("Invalid argument not valid semver ('" ++ v2 ++ "' received)")
    | some b => .ok (opAllows op (semverCmp a b))

/-- Shorthand for a plain numeric version, as parsed from "a.b.c". -/
def semverOf (a b c : Nat) : Semver :=
  ⟨[some a, some b, some c, some 0], Option.none⟩

/-! ## SHA-256 (`crypto.createHash("sha256").update(s).digest("hex")`)

A complete SHA-256 over the UTF-8 bytes of the input string, with all
32-bit arithmetic carried out on `Nat` modulo `2 ^ 32`. -/

/-- Truncation to 32 bits. -/
def w32 (n : Nat) : Nat := n % 4294967296

/-- 32-bit right rotation. -/
def rotr32 (x n : Nat) : Nat := w32 ((x >>> n) ||| (x <<< (32 - n)))

def xor3 (a b c : Nat) : Nat := Nat.xor (Nat.xor a b) c

def bsig0 (x : Nat) : Nat := xor3 (rotr32 x 2) (rotr32 x 13) (rotr32 x 22)

def bsig1 (x : Nat) : Nat := xor3 (rotr32 x 6) (rotr32 x 11) (rotr32 x 25)

def ssig0 (x : Nat) : Nat := xor3 (rotr32 x 7) (rotr32 x 18) (x >>> 3)

def ssig1 (x : Nat) : Nat := xor3 (rotr32 x 17) (rotr32 x 19) (x >>> 10)

def chFn (x y z : Nat) : Nat :=
  Nat.xor (Nat.land x y) (Nat.land (Nat.xor x 4294967295) z)

def majFn (x y z : Nat) : Nat :=
  Nat.xor (Nat.xor (Nat.land x y) (Nat.land x z)) (Nat.land y z)

/-- The 64 SHA-256 round constants, in decimal. -/
def sha256K : List Nat :=
  [1116352408, 1899447441, 3049323471, 3921009573, 961987163, 1508970993,
   2453635748, 2870763221, 3624381080, 310598401, 607225278, 1426881987,
   1925078388, 2162078206, 2614888103, 3248222580, 3835390401, 4022224774,
   264347078, 604807628, 770255983, 1249150122, 1555081692, 1996064986,
   2554220882, 2821834349, 2952996808, 3210313671, 3336571891, 3584528711,
   113926993, 338241895, 666307205, 773529912, 1294757372, 1396182291,
   1695183700, 1986661051, 2177026350, 2456956037, 2730485921, 2820302411,
   3259730800, 3345764771, 3516065817, 3600352804, 4094571909, 275423344,
   430227734, 506948616, 659060556, 883997877, 958139571, 1322822218,
   1537002063, 1747873779, 1955562222, 2024104815, 2227730452, 2361852424,
   2428436474, 2756734187, 3204031479, 3329325298]

/-- The initial hash state, in decimal. -/
def sha256H0 : List Nat :=
  [1779033703, 3144134277, 1013904242, 2773480762,
   1359893119, 2600822924, 528734635, 1541459225]

/-- Message-schedule extension; `acc` holds the words generated so far,
newest first, and `n` more words are appended. -/
def schedExt : List Nat → Nat → List Nat
  | acc, 0 => acc.reverse
  | acc, n + 1 =>
    let t := w32 (ssig1 (acc.getD 1 0) + acc.getD 6 0 + ssig0 (acc.getD 14 0) + acc.getD 15 0)
    schedExt (t :: acc) n

/-- The sixteen big-endian 32-bit words of a 64-byte chunk. -/
def chunkWords (chunk : List Nat) : List Nat :=
  (List.range 16).map fun i =>
    (chunk.getD (4 * i) 0) <<< 24 + (chunk.getD (4 * i + 1) 0) <<< 16 +
      (chunk.getD (4 * i + 2) 0) <<< 8 + chunk.getD (4 * i + 3) 0

/-- The full 64-word message schedule of a chunk. -/
def msgSchedule (chunk : List Nat) : List Nat :=
  schedExt (chunkWords chunk).reverse 48

/-- One compression round on the working state `(a,b,c,d,e,f,g,h)`. -/
def roundStep (st : Nat × Nat × Nat × Nat × Nat × Nat × Nat × Nat) (kw : Nat × Nat) :
    Nat × Nat × Nat × Nat × Nat × Nat × Nat × Nat :=
  match st, kw with
  | (a, b, c, d, e, f, g, h), (k, wt) =>
    let t1 := w32 (h + bsig1 e + chFn e f g + k + wt)
    let t2 := w32 (bsig0 a + majFn a b c)
    (w32 (t1 + t2), a, b, c, w32 (d + t1), e, f, g)

/-- Compression of one 64-byte chunk into the running hash state. -/
def processChunk (H : List Nat) (chunk : List Nat) : List Nat :=
  let ws := msgSchedule chunk
  let init := (H.getD 0 0, H.getD 1 0, H.getD 2 0, H.getD 3 0,
               H.getD 4 0, H.getD 5 0, H.getD 6 0, H.getD 7 0)
  let st := (List.zip sha256K ws).foldl roundStep init
  [w32 (H.getD 0 0 + st.1), w32 (H.getD 1 0 + st.2.1),
   w32 (H.getD 2 0 + st.2.2.1), w32 (H.getD 3 0 + st.2.2.2.1),
   w32 (H.getD 4 0 + st.2.2.2.2.1), w32 (H.getD 5 0 + st.2.2.2.2.2.1),
   w32 (H.getD 6 0 + st.2.2.2.2.2.2.1), w32 (H.getD 7 0 + st.2.2.2.2.2.2.2)]

/-- SHA-256 padding: `0x80`, zeros to 56 mod 64, 64-bit big-endian bit
length. -/
def padMessage (msg : List Nat) : List Nat :=
  let L := msg.length
  let k := (120 - (L + 1) % 64) % 64
  let bitLen := 8 * L
  msg ++ [128] ++ List.replicate k 0 ++
    (List.range 8).map (fun i => (bitLen >>> (56 - 8 * i)) % 256)

/-- Split a byte list into 64-byte chunks. -/
def chunks64 : List Nat → List (List Nat)
  | [] => []
  | x :: xs => ((x :: xs).take 64) :: chunks64 ((x :: xs).drop 64)
termination_by l => l.length
decreasing_by
  simp only [List.length_drop, List.length_cons]
  omega

/-- The eight 32-bit output words of SHA-256 on a byte list. -/
def sha256Words (msg : List Nat) : List Nat :=
  (chunks64 (padMessage msg)).foldl processChunk sha256H0

/-- UTF-8 encoding of one character. -/
def utf8EncodeChar (ch : Char) : List Nat :=
  let n := ch.toNat
  if n < 128 then [n]
  else if n < 2048 then [192 ||| (n >>> 6), 128 ||| (n &&& 63)]
  else if n < 65536 then
    [224 ||| (n >>> 12), 128 ||| ((n >>> 6) &&& 63), 128 ||| (n &&& 63)]
  else
    [240 ||| (n >>> 18), 128 ||| ((n >>> 12) &&& 63),
     128 ||| ((n >>> 6) &&& 63), 128 ||| (n &&& 63)]

/-- The UTF-8 bytes of a string (Node's default encoding for
`hash.update`). -/
def utf8Bytes (s : String) : List Nat :=
  (s.data.map utf8EncodeChar).flatten

def hexCharList : List Char :=
  ("0123456789abcdef" : String).data

/-- Lowercase hexadecimal digit of a nibble. -/
def nibbleChar (n : Nat) : Char :=
  hexCharList.getD (n % 16) '0'

/-- Eight lowercase hexadecimal digits of a 32-bit word, big-endian. -/
def word32Hex (w : Nat) : List Char :=
  (List.range 8).map (fun i => nibbleChar (w >>> (28 - 4 * i)))

/-- `digest("hex")`: the 64-character lowercase hexadecimal SHA-256
digest of the UTF-8 bytes of `s`. -/
def sha256Hex (s : String) : String :=
  String.mk (((sha256Words (utf8Bytes s)).map word32Hex).flatten)

/-- `true` iff every character of `s` is a lowercase hexadecimal
digit. -/
def isLowerHex (s : String) : Bool :=
  s.data.all (fun ch => decide (ch ∈ hexCharList))

/-! ## Configuration (`class Inputs`)

The constructor of `Inputs` in `main.ts` becomes `mkInputs`; raw inputs
are the strings returned by `core.getInput` (absent = `""`), and the
ambient process facts it reads are an `Ambient` record.  Field names
follow the source except `example` (a Lean keyword, here `examples`)
and `cacheKeyPrefix` (here `cacheKeyPfx`). -/

inductive HostOs
  | windows
  | mac
  | linux
deriving DecidableEq

inductive TargetOs
  | desktop
  | android
  | ios
deriving DecidableEq

inductive WasmMode
  | none
  | singlethread
  | multithread
deriving DecidableEq

inductive InstallDepsMode
  | enabled
  | disabled
  | nosudo
deriving DecidableEq

def hostStr : HostOs → String
  | .windows => "windows"
  | .mac => "mac"
  | .linux => "linux"

def targetStr : TargetOs → String
  | .desktop => "desktop"
  | .android => "android"
  | .ios => "ios"

def wasmModeStr : WasmMode → String
  | .none => "none"
  | .singlethread => "singlethread"
  | .multithread => "multithread"

/-- The raw `core.getInput` values, one per declared action input. -/
structure RawInputs where
  host : String
  target : String
  wasm : String
  version : String
  arch : String
  dir : String
  modules : String
  archives : String
  tools : String
  addToolsToPath : String
  extra : String
  installDeps : String
  cache : String
  cacheKeyPfx : String
  toolsOnly : String
  noQtBinaries : String
  setEnv : String
  aqtSource : String
  aqtVersion : String
  py7zrVersion : String
  source : String
  srcArchives : String
  documentation : String
  docModules : String
  docArchives : String
  examples : String
  exampleModules : String
  exampleArchives : String
deriving DecidableEq

/-- Ambient process facts read by the constructor:
`process.platform` and `process.env.RUNNER_WORKSPACE` (`""` = unset). -/
structure Ambient where
  platform : String
  runnerWorkspace : String
deriving DecidableEq

/-- The resolved, immutable configuration. -/
structure Config where
  host : HostOs
  target : TargetOs
  version : String
  wasm : WasmMode
  arch : String
  dir : String
  modules : List String
  archives : List String
  tools : List String
  addToolsToPath : Bool
  extra : List String
  src : Bool
  srcArchives : List String
  doc : Bool
  docArchives : List String
  docModules : List String
  examples : Bool
  exampleArchives : List String
  exampleModules : List String
  installDeps : InstallDepsMode
  cache : Bool
  cacheKeyPfx : String
  isInstallQtBinaries : Bool
  setEnv : Bool
  aqtSource : String
  aqtVersion : String
  py7zrVersion : String
deriving DecidableEq

/-- `Inputs.getBoolInput`. -/
def getBoolInput (s : String) : Bool :=
  lowerAscii s = "true"

/-- `Inputs.getStringArrayInput`: empty raw string gives the empty
sequence, otherwise a split on single spaces. -/
def getStringArrayInput (content : String) : List String :=
  if content = "" then [] else jsSplit content ' '

def hostErrMsg (s : String) : String :=
  "host: \"" ++ s ++ "\" is not one of \"windows\" | \"mac\" | \"linux\""

def targetErrMsg (s : String) : String :=
  "target: \"" ++ s ++ "\" is not one of \"desktop\" | \"android\" | \"ios\""

def wasmErrMsg (s : String) : String :=
  "wasm: \"" ++ s ++ "\" is not one of \"none\" | \"singlethread\" | \"multithread\""

def dirErrMsg : String :=
  "\"dir\" input may not be empty"

/-- The `process.platform` fallback for an empty `host` input. -/
def platformHost (p : String) : HostOs :=
  if p = "win32" then .windows
  else if p = "darwin" then .mac
  else .linux

def resolveHost (rawHost platform : String) : Except String HostOs :=
  if rawHost = "" then .ok (platformHost platform)
  else if rawHost = "windows" then .ok .windows
  else if rawHost = "mac" then .ok .mac
  else if rawHost = "linux" then .ok .linux
  else .error (hostErrMsg rawHost)

def resolveTarget (rawTarget : String) : Except String TargetOs :=
  if rawTarget = "desktop" then .ok .desktop
  else if rawTarget = "android" then .ok .android
  else if rawTarget = "ios" then .ok .ios
  else .error (targetErrMsg rawTarget)

def resolveWasm (rawWasm : String) : Except String WasmMode :=
  if rawWasm = "none" then .ok .none
  else if rawWasm = "singlethread" then .ok .singlethread
  else if rawWasm = "multithread" then .ok .multithread
  else .error (wasmErrMsg rawWasm)

/-- The `arch` defaulting ladder of the constructor (lines 174-198);
`compareVersions` may throw, and `&&` short-circuits. -/
def resolveArch (target : TargetOs) (host : HostOs) (version rawArch : String) :
    Except String String :=
  if rawArch ≠ "" then .ok rawArch
  else if target = .android then
    match cmpE version ">=" "5.14.0" with
    | .error e => .error e
    | .ok ge =>
      if ge then
        match cmpE version "<" "6.0.0" with
        | .error e => .error e
        | .ok lt => .ok (if lt then "android" else "android_armv7")
      else .ok "android_armv7"
  else if host = .windows then
    match cmpE version ">=" "6.8.0" with
    | .error e => .error e
    | .ok b1 =>
      if b1 then .ok "win64_msvc2022_64"
      else
        match cmpE version ">=" "5.15.0" with
        | .error e => .error e
        | .ok b2 =>
          if b2 then .ok "win64_msvc2019_64"
          else
            match cmpE version "<" "5.6.0" with
            | .error e => .error e
            | .ok b3 =>
              if b3 then .ok "win64_msvc2013_64"
              else
                match cmpE version "<" "5.9.0" with
                | .error e => .error e
                | .ok b4 => .ok (if b4 then "win64_msvc2015_64" else "win64_msvc2017_64")
  else .ok ""

/-- `core.getInput("dir") || process.env.RUNNER_WORKSPACE`, failing when
both are empty. -/
def resolveDirBase (rawDir workspace : String) : Except String String :=
  let d := if rawDir ≠ "" then rawDir else workspace
  if d = "" then .error dirErrMsg else .ok d

/-- `install-deps`: case-insensitive `"nosudo"` kept literally, any
other value is `true` iff case-insensitively `"true"`. -/
def resolveInstallDeps (raw : String) : InstallDepsMode :=
  if lowerAscii raw = "nosudo" then .nosudo
  else if lowerAscii raw = "true" then .enabled
  else .disabled

/-- The raw `target` values the constructor accepts. -/
def validTargetRaw (s : String) : Bool :=
  s = "desktop" || s = "android" || s = "ios"

/-- The raw `wasm` values the constructor accepts. -/
def validWasmRaw (s : String) : Bool :=
  s = "none" || s = "singlethread" || s = "multithread"

/-- The raw `host` values the constructor accepts (empty falls back to
the ambient platform). -/
def validHostRaw (s : String) : Bool :=
  s = "" || s = "windows" || s = "mac" || s = "linux"

/-- The `Inputs` constructor.  Fallible steps happen in source order
(host, target, wasm, arch, dir); every later field is infallible. -/
def mkInputs (raw : RawInputs) (amb : Ambient) : Except String Config :=
  match resolveHost raw.host amb.platform with
  | .error e => .error e
  | .ok host =>
    match resolveTarget raw.target with
    | .error e => .error e
    | .ok target =>
      match resolveWasm raw.wasm with
      | .error e => .error e
      | .ok wasm =>
        match resolveArch target host raw.version raw.arch with
        | .error e => .error e
        | .ok arch =>
          match resolveDirBase raw.dir amb.runnerWorkspace with
          | .error e => .error e
          | .ok dirBase =>
            .ok
              { host := host
                target := target
                version := raw.version
                wasm := wasm
                arch := arch
                dir := dirBase ++ "/Qt"
                modules := getStringArrayInput raw.modules
                archives := getStringArrayInput raw.archives
                tools := (getStringArrayInput raw.tools).map commaToSpace
                addToolsToPath := getBoolInput raw.addToolsToPath
                extra := getStringArrayInput raw.extra
                src := getBoolInput raw.source
                srcArchives := getStringArrayInput raw.srcArchives
                doc := getBoolInput raw.documentation
                docArchives := getStringArrayInput raw.docArchives
                docModules := getStringArrayInput raw.docModules
                examples := getBoolInput raw.examples
                exampleArchives := getStringArrayInput raw.exampleArchives
                exampleModules := getStringArrayInput raw.exampleModules
                installDeps := resolveInstallDeps raw.installDeps
                cache := getBoolInput raw.cache
                cacheKeyPfx := raw.cacheKeyPfx
                isInstallQtBinaries :=
                  !(getBoolInput raw.toolsOnly) && !(getBoolInput raw.noQtBinaries)
                setEnv := getBoolInput raw.setEnv
                aqtSource := raw.aqtSource
                aqtVersion := raw.aqtVersion
                py7zrVersion := raw.py7zrVersion }

/-- The record produced by a successful construction, given the five
fallible resolution results. -/
def configOf (raw : RawInputs) (host : HostOs) (target : TargetOs) (wasm : WasmMode)
    (arch dirBase : String) : Config :=
  { host := host
    target := target
    version := raw.version
    wasm := wasm
    arch := arch
    dir := dirBase ++ "/Qt"
    modules := getStringArrayInput raw.modules
    archives := getStringArrayInput raw.archives
    tools := (getStringArrayInput raw.tools).map commaToSpace
    addToolsToPath := getBoolInput raw.addToolsToPath
    extra := getStringArrayInput raw.extra
    src := getBoolInput raw.source
    srcArchives := getStringArrayInput raw.srcArchives
    doc := getBoolInput raw.documentation
    docArchives := getStringArrayInput raw.docArchives
    docModules := getStringArrayInput raw.docModules
    examples := getBoolInput raw.examples
    exampleArchives := getStringArrayInput raw.exampleArchives
    exampleModules := getStringArrayInput raw.exampleModules
    installDeps := resolveInstallDeps raw.installDeps
    cache := getBoolInput raw.cache
    cacheKeyPfx := raw.cacheKeyPfx
    isInstallQtBinaries := !(getBoolInput raw.toolsOnly) && !(getBoolInput raw.noQtBinaries)
    setEnv := getBoolInput raw.setEnv
    aqtSource := raw.aqtSource
    aqtVersion := raw.aqtVersion
    py7zrVersion := raw.py7zrVersion }

/-! ## Cache key (`Inputs.cacheKey`) -/

/-- The nested iteration of the `cacheKey` getter: the outer `for`
walks this list, the inner `for` walks each element.  The bare strings
`"src"`, `"doc"`, `"example"` are iterated character by character by
JavaScript's `for (const keyString of keyStringArray)`, hence
`strChars`. -/
def keyStringGroups (c : Config) (osRelease : String) : List (List String) :=
  [[hostStr c.host, osRelease, targetStr c.target, wasmModeStr c.wasm, c.arch, c.version,
    c.dir, c.py7zrVersion, c.aqtSource, c.aqtVersion],
   c.modules, c.archives, c.extra, c.tools,
   strChars (if c.src then "src" else ""),
   c.srcArchives,
   strChars (if c.doc then "doc" else ""),
   c.docArchives, c.docModules,
   strChars (if c.examples then "example" else ""),
   c.exampleArchives, c.exampleModules]

/-- The assembled key before the length check: prefix, then `-value`
for every truthy (non-empty) string, then commas replaced by
hyphens. -/
def assembledKey (c : Config) (osRelease : String) : String :=
  commaToDash ((keyStringGroups c osRelease).flatten.foldl
    (fun acc ks => if ks ≠ "" then acc ++ "-" ++ ks else acc) c.cacheKeyPfx)

/-- `Inputs.cacheKey`, a pure function of the configuration and
`os.release()`. -/
def cacheKey (c : Config) (osRelease : String) : String :=
  let k := assembledKey c osRelease
  if k.length > 512 then c.cacheKeyPfx ++ "-" ++ sha256Hex k else k

/-! ## Effects of `run` -/

/-- External facts `run` observes: the platform, `os.release()`, whether
`cache.restoreCache` returned a key, and whether the installed aqt
version supports `--autodesktop`. -/
structure RunAmbient where
  platform : String
  osRelease : String
  cacheRestoreHit : Bool
  autodesktopSupported : Bool
deriving DecidableEq

/-- The configuration-determined observable effects of one `run`:
the `aqt install-qt` argument list (if invoked), the warnings of the
WASM step, the `aqt install-tool` argument lists, and whether
`IQTA_TOOLS` was exported and `qtPath` published. -/
structure RunEffects where
  qtInstallArgs : Option (List String)
  wasmWarnings : List String
  toolInstallArgs : List (List String)
  iqtaToolsExported : Bool
  qtPathPublished : Bool
deriving DecidableEq

/-- The Linux dependency step (lines 300-340): its only
configuration-relevant behaviour is the version comparison guarding the
extra `libxcb-cursor0` package, which can throw. -/
def depsStep (c : Config) (platform : String) : Except String Unit :=
  if platform = "linux" then
    if c.installDeps ≠ .disabled then
      match cmpE c.version ">=" "6.5.0" with
      | .error e => .error e
      | .ok _ => .ok ()
    else .ok ()
  else .ok ()

/-- `flaggedList`. -/
def flaggedList (flag : String) (listArgs : List String) : List String :=
  if listArgs.isEmpty then [] else flag :: listArgs

/-- Fork capability indicator (line 423-424). -/
def usingKidevFork (c : Config) : Bool :=
  containsSubstr c.aqtSource "Kidev/aqtinstall" || c.aqtVersion = "==3.2.*"

def forkWarning : String :=
  "WASM support requires Kidev's fork of aqtinstall (version 3.2.* or higher)"

def qtVersionWarning : String :=
  "WASM support requires Qt 6.7.0 or higher"

/-- The `install-qt` arguments before the WASM step (lines 410-419). -/
def qtBaseArgs (c : Config) (autodesk : Bool) : List String :=
  [hostStr c.host, targetStr c.target, c.version]
    ++ (if c.arch ≠ "" then [c.arch] else [])
    ++ (if autodesk then ["--autodesktop"] else [])
    ++ ["--outputdir", c.dir]
    ++ flaggedList "--modules" c.modules
    ++ flaggedList "--archives" c.archives

/-- The WASM configuration step (lines 421-435): pushes
`--wasm <mode>` or emits one warning; the version comparison can
throw. -/
def wasmBlock (c : Config) (base : List String) : Except String (List String × List String) :=
  if c.wasm ≠ WasmMode.none then
    match cmpE c.version ">=" "6.7.0" with
    | .error e => .error e
    | .ok ge =>
      let fork := usingKidevFork c
      if ge && fork then .ok (base ++ ["--wasm", wasmModeStr c.wasm], [])
      else if !fork then .ok (base, [forkWarning])
      else if !ge then .ok (base, [qtVersionWarning])
      else .ok (base, [])
  else .ok (base, [])

/-- The full `install-qt` argument list with its warnings (lines
409-438): base, WASM step, then the `extra` inputs. -/
def qtInstallStep (c : Config) (autodesk : Bool) : Except String (List String × List String) :=
  match wasmBlock c (qtBaseArgs c autodesk) with
  | .error e => .error e
  | .ok (args, warns) => .ok (args ++ c.extra, warns)

/-- One `aqt install-tool` invocation's arguments (lines 467-476). -/
def toolArgsFor (c : Config) (tool : String) : List String :=
  [hostStr c.host, targetStr c.target, tool, "--outputdir", c.dir] ++ c.extra

/-- The `install-qt` part of the miss branch: invoked only when binary
installation is requested (line 409). -/
def qtPart (c : Config) (autodesk : Bool) :
    Except String (Option (List String) × List String) :=
  if c.isInstallQtBinaries then
    match qtInstallStep c autodesk with
    | .error e => .error e
    | .ok (args, warns) => .ok (some args, warns)
  else .ok (Option.none, [])

/-- The installation block of `run` (lines 388-478), skipped entirely on
an internal cache hit: the `install-qt` invocation with its warnings and
the `install-tool` invocations. -/
def instPart (c : Config) (ra : RunAmbient) :
    Except String (Option (List String) × List String × List (List String)) :=
  if c.cache && ra.cacheRestoreHit then .ok (Option.none, [], [])
  else
    match qtPart c ra.autodesktopSupported with
    | .error e => .error e
    | .ok (qt, warns) => .ok (qt, warns, c.tools.map (toolArgsFor c))

/-- The `Qt5_DIR` guard of the environment block (line 504), whose
version comparison can throw. -/
def qt5DirCheck (c : Config) : Except String Unit :=
  if c.isInstallQtBinaries && c.setEnv then
    match cmpE c.version "<" "6.0.0" with
    | .error e => .error e
    | .ok _ => .ok ()
  else .ok ()

/-- The observable effects of `run` after construction succeeded.
Filesystem interactions (`locateQtArchDir`, `toolsPaths`) are assumed to
succeed and pip installs are untracked; the only modelled failures are
the version comparisons `run` performs. -/
def runEffects (c : Config) (ra : RunAmbient) : Except String RunEffects :=
  match depsStep c ra.platform with
  | .error e => .error e
  | .ok _ =>
    match instPart c ra with
    | .error e => .error e
    | .ok (qt, warns, toolCalls) =>
      match qt5DirCheck c with
      | .error e => .error e
      | .ok _ =>
        .ok
          { qtInstallArgs := qt
            wasmWarnings := warns
            toolInstallArgs := toolCalls
            iqtaToolsExported := !c.tools.isEmpty && c.setEnv
            qtPathPublished := c.isInstallQtBinaries }

/-! ## Environment variable publication (`setOrAppendEnvVar`) -/

/-- `setOrAppendEnvVar` (lines 18-25): appends to a truthy pre-existing
value with a colon; JavaScript truthiness treats an empty string like an
absent one. -/
def setOrAppendEnvVar (oldValue : Option String) (value : String) : String :=
  match oldValue with
  | some old => if old ≠ "" then old ++ ":" ++ value else value
  | Option.none => value

/-- The `LD_LIBRARY_PATH` value published on Linux (line 499). -/
def publishedLdLibraryPath (prev : Option String) (qtPath : String) : String :=
  setOrAppendEnvVar prev (qtPath ++ "/lib")

/-- The `PKG_CONFIG_PATH` value published off Windows (line 502). -/
def publishedPkgConfigPath (prev : Option String) (qtPath : String) : String :=
  setOrAppendEnvVar prev (qtPath ++ "/lib/pkgconfig")

/-! ## Concrete fixtures

Raw-input records, their resolved configurations and run effects used
for concrete evaluations.  `defaultRaw` is an absent (empty) value for
every input. -/

def defaultRaw : RawInputs :=
  { host := "", target := "", wasm := "", version := "", arch := "", dir := ""
    modules := "", archives := "", tools := "", addToolsToPath := "", extra := ""
    installDeps := "", cache := "", cacheKeyPfx := "", toolsOnly := "", noQtBinaries := ""
    setEnv := "", aqtSource := "", aqtVersion := "", py7zrVersion := "", source := ""
    srcArchives := "", documentation := "", docModules := "", docArchives := ""
    examples := "", exampleModules := "", exampleArchives := "" }

/-- The configuration produced from all-empty inputs except `target`,
`wasm`, `dir`: a neutral base for concrete configurations. -/
def baseConfig : Config :=
  { host := .linux, target := .desktop, version := "", wasm := .none, arch := ""
    dir := "", modules := [], archives := [], tools := [], addToolsToPath := false
    extra := [], src := false, srcArchives := [], doc := false, docArchives := []
    docModules := [], examples := false, exampleArchives := [], exampleModules := []
    installDeps := .disabled, cache := false, cacheKeyPfx := ""
    isInstallQtBinaries := true, setEnv := false, aqtSource := "", aqtVersion := ""
    py7zrVersion := "" }

def ambLinux : Ambient := { platform := "linux", runnerWorkspace := "" }

def raMiss : RunAmbient :=
  { platform := "linux", osRelease := "r", cacheRestoreHit := false
    autodesktopSupported := false }

def raHit : RunAmbient :=
  { platform := "linux", osRelease := "r", cacheRestoreHit := true
    autodesktopSupported := false }

/-- A configuration whose cache-key prefix alone exceeds the length
bound. -/
def cfgC1 : Config :=
  { baseConfig with cacheKeyPfx := String.mk (List.replicate 513 'p') }

def rawW3 : RawInputs :=
  { defaultRaw with
    target := "android"
    wasm := "none"
    version := "5.14.0"
    dir := "w" }

def cfgW3 : Config :=
  { baseConfig with
    target := .android
    version := "5.14.0"
    arch := "android"
    dir := "w/Qt" }

def rawC4 : RawInputs :=
  { defaultRaw with
    target := "desktop"
    wasm := "multithread"
    version := "6.0.0"
    dir := "w"
    extra := "--wasm multithread"
    aqtVersion := "==3.1.0" }

def cfgC4 : Config :=
  { baseConfig with
    version := "6.0.0"
    wasm := .multithread
    dir := "w/Qt"
    extra := ["--wasm", "multithread"]
    aqtVersion := "==3.1.0" }

def qtArgsC4 : List String :=
  ["linux", "desktop", "6.0.0", "--outputdir", "w/Qt", "--wasm", "multithread"]

def effC4 : RunEffects :=
  { qtInstallArgs := some qtArgsC4
    wasmWarnings := [forkWarning]
    toolInstallArgs := []
    iqtaToolsExported := false
    qtPathPublished := true }

def rawW4 : RawInputs :=
  { defaultRaw with
    target := "desktop"
    wasm := "multithread"
    version := "6.7.0"
    dir := "w"
    aqtVersion := "==3.2.*" }

def cfgW4 : Config :=
  { baseConfig with
    version := "6.7.0"
    wasm := .multithread
    dir := "w/Qt"
    aqtVersion := "==3.2.*" }

def effW4 : RunEffects :=
  { qtInstallArgs := some ["linux", "desktop", "6.7.0", "--outputdir", "w/Qt",
      "--wasm", "multithread"]
    wasmWarnings := []
    toolInstallArgs := []
    iqtaToolsExported := false
    qtPathPublished := true }

def rawC5 : RawInputs :=
  { defaultRaw with
    target := "desktop"
    wasm := "none"
    version := ""
    arch := "custom"
    dir := "w" }

def rawW5 : RawInputs :=
  { defaultRaw with
    target := "android"
    wasm := "none"
    version := "x"
    dir := "w" }

def rawW6 : RawInputs :=
  { defaultRaw with
    target := "phone"
    wasm := "none"
    dir := "w" }

def rawW6b : RawInputs :=
  { defaultRaw with
    target := "desktop"
    wasm := "none"
    arch := "x"
    dir := "w" }

def rawW7 : RawInputs :=
  { defaultRaw with
    target := "desktop"
    wasm := "none"
    version := "6.0.0"
    arch := "x"
    dir := "w"
    setEnv := "true" }

def cfgW7 : Config :=
  { baseConfig with
    version := "6.0.0"
    arch := "x"
    dir := "w/Qt"
    setEnv := true }

def effW7 : RunEffects :=
  { qtInstallArgs := some ["linux", "desktop", "6.0.0", "x", "--outputdir", "w/Qt"]
    wasmWarnings := []
    toolInstallArgs := []
    iqtaToolsExported := false
    qtPathPublished := true }

def rawC9 : RawInputs :=
  { defaultRaw with
    target := "desktop"
    wasm := "none"
    version := "6.0.0"
    dir := "w"
    cache := "true" }

def cfgC9 : Config :=
  { baseConfig with
    version := "6.0.0"
    dir := "w/Qt"
    cache := true }

/-- The effects of a cache-hit run: the whole installation block is
skipped. -/
def effHit : RunEffects :=
  { qtInstallArgs := Option.none
    wasmWarnings := []
    toolInstallArgs := []
    iqtaToolsExported := false
    qtPathPublished := true }

def rawC10 : RawInputs :=
  { defaultRaw with
    target := "desktop"
    wasm := "none"
    version := "6.0.0"
    arch := "x"
    dir := "w"
    tools := " "
    cache := "true" }

def cfgC10 : Config :=
  { baseConfig with
    version := "6.0.0"
    arch := "x"
    dir := "w/Qt"
    tools := ["", ""]
    cache := true }

def rawW10 : RawInputs :=
  { defaultRaw with
    target := "desktop"
    wasm := "none"
    version := "6.0.0"
    arch := "x"
    dir := "w"
    tools := " "
    setEnv := "true" }

def cfgW10 : Config :=
  { baseConfig with
    version := "6.0.0"
    arch := "x"
    dir := "w/Qt"
    tools := ["", ""]
    setEnv := true }

def toolArgs0 : List String := ["linux", "desktop", "", "--outputdir", "w/Qt"]

def effW10 : RunEffects :=
  { qtInstallArgs := some ["linux", "desktop", "6.0.0", "x", "--outputdir", "w/Qt"]
    wasmWarnings := []
    toolInstallArgs := [toolArgs0, toolArgs0]
    iqtaToolsExported := true
    qtPathPublished := true }

/-! ## Helper lemmas -/

theorem parse_5_14_0 : parseSemver "5.14.0" = some (semverOf 5 14 0) := by decide

theorem parse_6_0_0 : parseSemver "6.0.0" = some (semverOf 6 0 0) := by decide

theorem parse_6_8_0 : parseSemver "6.8.0" = some (semverOf 6 8 0) := by decide

theorem parse_5_15_0 : parseSemver "5.15.0" = some (semverOf 5 15 0) := by decide

theorem parse_5_6_0 : parseSemver "5.6.0" = some (semverOf 5 6 0) := by decide

theorem parse_5_9_0 : parseSemver "5.9.0" = some (semverOf 5 9 0) := by decide

theorem parse_6_7_0 : parseSemver "6.7.0" = some (semverOf 6 7 0) := by decide

theorem parse_6_5_0 : parseSemver "6.5.0" = some (semverOf 6 5 0) := by decide

theorem processChunk_length (H chunk : List Nat) : (processChunk H chunk).length = 8 := rfl

theorem sha256Words_length (msg : List Nat) : (sha256Words msg).length = 8 := by
  have key : ∀ (cs : List (List Nat)) (H : List Nat), H.length = 8 →
      (cs.foldl processChunk H).length = 8 := by
    intro cs
    induction cs with
    | nil => intro H h; simpa using h
    | cons ch cs ih =>
      intro H _
      simpa using ih (processChunk H ch) (processChunk_length H ch)
  exact key _ sha256H0 rfl

theorem word32Hex_length (w : Nat) : (word32Hex w).length = 8 := by
  simp [word32Hex]

theorem flatten_word32Hex_length (ws : List Nat) :
    ((ws.map word32Hex).flatten).length = 8 * ws.length := by
  induction ws with
  | nil => simp
  | cons w ws ih =>
    simp [ih, word32Hex_length]
    ring

theorem sha256Hex_length (s : String) : (sha256Hex s).length = 64 := by
  show (((sha256Words (utf8Bytes s)).map word32Hex).flatten).length = 64
  rw [flatten_word32Hex_length, sha256Words_length]

theorem nibbleChar_mem (n : Nat) : nibbleChar n ∈ hexCharList := by
  have h : n % 16 < 16 := Nat.mod_lt _ (by decide)
  have key : ∀ i : Fin 16, hexCharList.getD i.val '0' ∈ hexCharList := by decide
  exact key ⟨n % 16, h⟩

theorem isLowerHex_sha256Hex (s : String) : isLowerHex (sha256Hex s) = true := by
  show (((sha256Words (utf8Bytes s)).map word32Hex).flatten).all _ = true
  rw [List.all_eq_true]
  intro ch hch
  rw [List.mem_flatten] at hch
  obtain ⟨l, hl, hchl⟩ := hch
  rw [List.mem_map] at hl
  obtain ⟨w, _, rfl⟩ := hl
  rw [word32Hex, List.mem_map] at hchl
  obtain ⟨i, _, rfl⟩ := hchl
  simpa using nibbleChar_mem _

theorem cacheKey_of_long (c : Config) (r : String)
    (h : (assembledKey c r).length > 512) :
    cacheKey c r = c.cacheKeyPfx ++ "-" ++ sha256Hex (assembledKey c r) := by
  simp [cacheKey, h]

theorem cacheKey_of_short (c : Config) (r : String)
    (h : ¬ (assembledKey c r).length > 512) :
    cacheKey c r = assembledKey c r := by
  simp [cacheKey, h]

theorem cacheKey_long_length (c : Config) (r : String)
    (h : (assembledKey c r).length > 512) :
    (cacheKey c r).length = c.cacheKeyPfx.length + 65 := by
  rw [cacheKey_of_long c r h]
  rw [String.length_append, String.length_append, sha256Hex_length]
  have hdash : ("-" : String).length = 1 := rfl
  omega

theorem mkInputs_eq_configOf (raw : RawInputs) (amb : Ambient)
    (host : HostOs) (target : TargetOs) (wasm : WasmMode) (arch dirBase : String)
    (h1 : resolveHost raw.host amb.platform = .ok host)
    (h2 : resolveTarget raw.target = .ok target)
    (h3 : resolveWasm raw.wasm = .ok wasm)
    (h4 : resolveArch target host raw.version raw.arch = .ok arch)
    (h5 : resolveDirBase raw.dir amb.runnerWorkspace = .ok dirBase) :
    mkInputs raw amb = .ok (configOf raw host target wasm arch dirBase) := by
  simp only [mkInputs, h1, h2, h3, h4, h5]
  rfl

theorem mkInputs_ok_inv (raw : RawInputs) (amb : Ambient) (c : Config)
    (h : mkInputs raw amb = .ok c) :
    ∃ host target wasm arch dirBase,
      resolveHost raw.host amb.platform = .ok host ∧
      resolveTarget raw.target = .ok target ∧
      resolveWasm raw.wasm = .ok wasm ∧
      resolveArch target host raw.version raw.arch = .ok arch ∧
      resolveDirBase raw.dir amb.runnerWorkspace = .ok dirBase ∧
      c = configOf raw host target wasm arch dirBase := by
  unfold mkInputs at h
  split at h
  · exact absurd h (by simp)
  next host h1 =>
    split at h
    · exact absurd h (by simp)
    next target h2 =>
      split at h
      · exact absurd h (by simp)
      next wasm h3 =>
        split at h
        · exact absurd h (by simp)
        next arch h4 =>
          split at h
          · exact absurd h (by simp)
          next dirBase h5 =>
            refine ⟨host, target, wasm, arch, dirBase, h1, h2, h3, h4, h5, ?_⟩
            cases h
            rfl

theorem cmpE_ok {v w : String} {a b : Semver} (op : String)
    (hv : parseSemver v = some a) (hw : parseSemver w = some b) :
    cmpE v op w = .ok (opAllows op (semverCmp a b)) := by
  simp [cmpE, hv, hw]

theorem resolveArch_nonempty (target : TargetOs) (host : HostOs) (version rawArch : String)
    (h : rawArch ≠ "") : resolveArch target host version rawArch = .ok rawArch := by
  simp [resolveArch, h]

theorem resolveArch_android {version : String} {pv : Semver} (host : HostOs)
    (hpv : parseSemver version = some pv) :
    resolveArch .android host version "" =
      .ok (if vGe pv (semverOf 5 14 0) && vLt pv (semverOf 6 0 0)
           then "android" else "android_armv7") := by
  have h1 := cmpE_ok ">=" hpv parse_5_14_0
  have h2 := cmpE_ok "<" hpv parse_6_0_0
  rcases Bool.eq_false_or_eq_true (opAllows ">=" (semverCmp pv (semverOf 5 14 0))) with hge | hge <;>
    rcases Bool.eq_false_or_eq_true (opAllows "<" (semverCmp pv (semverOf 6 0 0))) with hlt | hlt <;>
      simp [resolveArch, h1, h2, vGe, vLt, hge, hlt]

theorem resolveArch_windows {version : String} {pv : Semver} (target : TargetOs)
    (ht : target ≠ .android) (hpv : parseSemver version = some pv) :
    resolveArch target .windows version "" =
      .ok (if vGe pv (semverOf 6 8 0) then "win64_msvc2022_64"
           else if vGe pv (semverOf 5 15 0) then "win64_msvc2019_64"
           else if vLt pv (semverOf 5 6 0) then "win64_msvc2013_64"
           else if vLt pv (semverOf 5 9 0) then "win64_msvc2015_64"
           else "win64_msvc2017_64") := by
  have h1 := cmpE_ok ">=" hpv parse_6_8_0
  have h2 := cmpE_ok ">=" hpv parse_5_15_0
  have h3 := cmpE_ok "<" hpv parse_5_6_0
  have h4 := cmpE_ok "<" hpv parse_5_9_0
  rcases Bool.eq_false_or_eq_true (opAllows ">=" (semverCmp pv (semverOf 6 8 0))) with hb1 | hb1 <;>
    rcases Bool.eq_false_or_eq_true (opAllows ">=" (semverCmp pv (semverOf 5 15 0))) with hb2 | hb2 <;>
      rcases Bool.eq_false_or_eq_true (opAllows "<" (semverCmp pv (semverOf 5 6 0))) with hb3 | hb3 <;>
        rcases Bool.eq_false_or_eq_true (opAllows "<" (semverCmp pv (semverOf 5 9 0))) with hb4 | hb4 <;>
          simp [resolveArch, ht, h1, h2, h3, h4, vGe, vLt, hb1, hb2, hb3, hb4]

theorem resolveArch_other (target : TargetOs) (host : HostOs) (version : String)
    (ht : target ≠ .android) (hh : host ≠ .windows) :
    resolveArch target host version "" = .ok "" := by
  simp [resolveArch, ht, hh]

theorem runEffects_ok_inv (c : Config) (ra : RunAmbient) (eff : RunEffects)
    (h : runEffects c ra = .ok eff) :
    eff.iqtaToolsExported = (!c.tools.isEmpty && c.setEnv) ∧
    eff.qtPathPublished = c.isInstallQtBinaries ∧
    instPart c ra = .ok (eff.qtInstallArgs, eff.wasmWarnings, eff.toolInstallArgs) := by
  unfold runEffects at h
  split at h
  · exact absurd h (by simp)
  next _ =>
    split at h
    · exact absurd h (by simp)
    next qt warns toolCalls hinst =>
      split at h
      · exact absurd h (by simp)
      next _ =>
        cases h
        exact ⟨rfl, rfl, hinst⟩

theorem instPart_hit (c : Config) (ra : RunAmbient)
    (h : (c.cache && ra.cacheRestoreHit) = true) :
    instPart c ra = .ok (Option.none, [], []) := by
  simp [instPart, h]

theorem instPart_miss (c : Config) (ra : RunAmbient)
    (h : (c.cache && ra.cacheRestoreHit) = false) :
    instPart c ra =
      match qtPart c ra.autodesktopSupported with
      | .error e => .error e
      | .ok (qt, warns) => .ok (qt, warns, c.tools.map (toolArgsFor c)) := by
  simp [instPart, h]

theorem jsSplitCh_all_sep (sep : Char) :
    ∀ cs : List Char, (∀ c ∈ cs, c = sep) →
      jsSplitCh sep cs = List.replicate (cs.length + 1) [] := by
  intro cs
  induction cs with
  | nil => intro _; rfl
  | cons c cs ih =>
    intro hall
    have hc : c = sep := hall c (by simp)
    have hrest : ∀ x ∈ cs, x = sep := fun x hx => hall x (by simp [hx])
    simp [jsSplitCh, hc, ih hrest, List.replicate]

theorem getStringArrayInput_all_space (s : String) (hne : s ≠ "")
    (hall : ∀ c ∈ s.data, c = ' ') :
    getStringArrayInput s = List.replicate (s.data.length + 1) "" := by
  have : jsSplitCh ' ' s.data = List.replicate (s.data.length + 1) [] :=
    jsSplitCh_all_sep ' ' s.data hall
  simp [getStringArrayInput, hne, jsSplit, this, List.map_replicate]

theorem resolveHost_empty (p : String) : resolveHost "" p = .ok (platformHost p) := by
  simp [resolveHost]

theorem resolveHost_err (s p : String) (h : validHostRaw s = false) :
    resolveHost s p = .error (hostErrMsg s) := by
  obtain ⟨⟨⟨h1, h2⟩, h3⟩, h4⟩ : ((s ≠ "" ∧ s ≠ "windows") ∧ s ≠ "mac") ∧ s ≠ "linux" := by
    simpa [validHostRaw, not_or] using h
  simp [resolveHost, h1, h2, h3, h4]

theorem resolveHost_ok_of_valid (s p : String) (h : validHostRaw s = true) :
    ∃ h', resolveHost s p = .ok h' := by
  have hd : ((s = "" ∨ s = "windows") ∨ s = "mac") ∨ s = "linux" := by
    simpa [validHostRaw, or_assoc] using h
  rcases hd with ((rfl | rfl) | rfl) | rfl <;> exact ⟨_, rfl⟩

theorem resolveTarget_err (s : String) (h : validTargetRaw s = false) :
    resolveTarget s = .error (targetErrMsg s) := by
  obtain ⟨⟨h1, h2⟩, h3⟩ : (s ≠ "desktop" ∧ s ≠ "android") ∧ s ≠ "ios" := by
    simpa [validTargetRaw, not_or] using h
  simp [resolveTarget, h1, h2, h3]

theorem resolveTarget_ok_of_valid (s : String) (h : validTargetRaw s = true) :
    ∃ t, resolveTarget s = .ok t := by
  have hd : (s = "desktop" ∨ s = "android") ∨ s = "ios" := by
    simpa [validTargetRaw, or_assoc] using h
  rcases hd with (rfl | rfl) | rfl <;> exact ⟨_, rfl⟩

theorem resolveWasm_err (s : String) (h : validWasmRaw s = false) :
    resolveWasm s = .error (wasmErrMsg s) := by
  obtain ⟨⟨h1, h2⟩, h3⟩ : (s ≠ "none" ∧ s ≠ "singlethread") ∧ s ≠ "multithread" := by
    simpa [validWasmRaw, not_or] using h
  simp [resolveWasm, h1, h2, h3]

theorem resolveWasm_ok_of_valid (s : String) (h : validWasmRaw s = true) :
    ∃ w, resolveWasm s = .ok w := by
  have hd : (s = "none" ∨ s = "singlethread") ∨ s = "multithread" := by
    simpa [validWasmRaw, or_assoc] using h
  rcases hd with (rfl | rfl) | rfl <;> exact ⟨_, rfl⟩

theorem resolveDirBase_ok (rawDir ws : String) (h : rawDir ≠ "" ∨ ws ≠ "") :
    ∃ d, resolveDirBase rawDir ws = .ok d := by
  by_cases hd : rawDir = ""
  · rcases h with h | h
    · exact absurd hd h
    · exact ⟨ws, by simp [resolveDirBase, hd, h]⟩
  · exact ⟨rawDir, by simp [resolveDirBase, hd]⟩

theorem wasmBlock_eval (c : Config) (base : List String) (pv : Semver)
    (hw : c.wasm ≠ WasmMode.none) (hpv : parseSemver c.version = some pv) :
    wasmBlock c base =
      (if vGe pv (semverOf 6 7 0) && usingKidevFork c then
        .ok (base ++ ["--wasm", wasmModeStr c.wasm], [])
      else if !usingKidevFork c then .ok (base, [forkWarning])
      else .ok (base, [qtVersionWarning])) := by
  have h1 := cmpE_ok ">=" hpv parse_6_7_0
  rcases Bool.eq_false_or_eq_true (opAllows ">=" (semverCmp pv (semverOf 6 7 0))) with hge | hge <;>
    rcases Bool.eq_false_or_eq_true (usingKidevFork c) with hf | hf <;>
      simp [wasmBlock, hw, h1, vGe, hge, hf]

theorem mem_qtBaseArgs {x : String} {c : Config} {ad : Bool} (h : x ∈ qtBaseArgs c ad) :
    x = hostStr c.host ∨ x = targetStr c.target ∨ x = c.version ∨ x = c.arch ∨
    x = "--autodesktop" ∨ x = "--outputdir" ∨ x = c.dir ∨ x = "--modules" ∨
    x ∈ c.modules ∨ x = "--archives" ∨ x ∈ c.archives := by
  rcases Bool.eq_false_or_eq_true c.modules.isEmpty with h1 | h1 <;>
    rcases Bool.eq_false_or_eq_true c.archives.isEmpty with h2 | h2 <;>
      cases ad <;>
        by_cases h3 : c.arch = "" <;>
          simp [qtBaseArgs, flaggedList, h1, h2, h3] at h <;>
            tauto

theorem parse_ne_wasmFlag {v : String} {pv : Semver} (h : parseSemver v = some pv) :
    v ≠ "--wasm" := by
  intro he
  rw [he] at h
  have hn : parseSemver "--wasm" = Option.none := by decide
  rw [hn] at h
  exact absurd h (by simp)

theorem append_Qt_ne_wasmFlag (s : String) : s ++ "/Qt" ≠ "--wasm" := by
  intro h
  have hd := congrArg String.data h
  rw [String.data_append] at hd
  have hq : ("/Qt" : String).data = ['/', 'Q', 't'] := rfl
  have hw : ("--wasm" : String).data = ['-', '-', 'w', 'a', 's', 'm'] := rfl
  rw [hq, hw] at hd
  have hr := congrArg List.reverse hd
  simp [List.reverse_append] at hr

theorem wasmFlag_not_mem_qtBaseArgs (c : Config) (ad : Bool) (pv : Semver)
    (hpv : parseSemver c.version = some pv)
    (harch : c.arch ≠ "--wasm") (hdir : c.dir ≠ "--wasm")
    (hm : "--wasm" ∉ c.modules) (ha : "--wasm" ∉ c.archives) :
    "--wasm" ∉ qtBaseArgs c ad := by
  intro hmem
  rcases mem_qtBaseArgs hmem with h | h | h | h | h | h | h | h | h | h | h
  · cases hh : c.host <;> rw [hh] at h <;> exact absurd h (by decide)
  · cases ht : c.target <;> rw [ht] at h <;> exact absurd h (by decide)
  · exact parse_ne_wasmFlag hpv h.symm
  · exact harch h.symm
  · exact absurd h (by decide)
  · exact absurd h (by decide)
  · exact hdir h.symm
  · exact absurd h (by decide)
  · exact hm h
  · exact absurd h (by decide)
  · exact ha h

/-! ## Claim theorems -/

/-- C1 (amended): for every resolved configuration and OS release
string the derived cache key has length at most
`max 512 (cacheKeyPfx.length + 65)` — in particular at most 512
whenever the prefix has at most 447 characters; when the assembled key
fits in 512 characters it is emitted unchanged, and whenever it exceeds
512 characters the emitted key is exactly the prefix, a hyphen and the
64-character lowercase hexadecimal SHA-256 digest of the assembled
string. -/
theorem c1_cacheKey_bounded (c : Config) (r : String) :
    (cacheKey c r).length ≤ max 512 (c.cacheKeyPfx.length + 65) ∧
    ((assembledKey c r).length ≤ 512 → cacheKey c r = assembledKey c r) ∧
    ((assembledKey c r).length > 512 →
      cacheKey c r = c.cacheKeyPfx ++ "-" ++ sha256Hex (assembledKey c r) ∧
      (sha256Hex (assembledKey c r)).length = 64 ∧
      isLowerHex (sha256Hex (assembledKey c r)) = true) := by
  refine ⟨?_, ?_, ?_⟩
  · by_cases h : (assembledKey c r).length > 512
    · rw [cacheKey_long_length c r h]
      exact le_max_of_le_right (le_refl _)
    · rw [cacheKey_of_short c r h]
      exact le_max_of_le_left (by omega)
  · intro h
    exact cacheKey_of_short c r (by omega)
  · intro h
    exact ⟨cacheKey_of_long c r h, sha256Hex_length _, isLowerHex_sha256Hex _⟩

/-- Witness for C1: a 513-character prefix takes the hashed branch, the
all-defaults configuration takes the verbatim branch. -/
theorem c1_witness :
    ((assembledKey cfgC1 "os").length > 512 ∧
      cacheKey cfgC1 "os" = cfgC1.cacheKeyPfx ++ "-" ++ sha256Hex (assembledKey cfgC1 "os") ∧
      (sha256Hex (assembledKey cfgC1 "os")).length = 64 ∧
      isLowerHex (sha256Hex (assembledKey cfgC1 "os")) = true) ∧
    ((assembledKey baseConfig "os").length ≤ 512 ∧
      cacheKey baseConfig "os" = assembledKey baseConfig "os") := by
  have h1 : (assembledKey cfgC1 "os").length > 512 := by decide
  have h2 : (assembledKey baseConfig "os").length ≤ 512 := by decide
  exact ⟨⟨h1, (c1_cacheKey_bounded cfgC1 "os").2.2 h1⟩,
         ⟨h2, (c1_cacheKey_bounded baseConfig "os").2.1 h2⟩⟩

/-- Counterexample for C1 as stated: with a 513-character cache-key
prefix the emitted key has length 578, exceeding the claimed 512
bound. -/
theorem c1_counterexample : 512 < (cacheKey cfgC1 "os").length := by
  have hlong : (assembledKey cfgC1 "os").length > 512 := by decide
  rw [cacheKey_long_length cfgC1 "os" hlong]
  have hp : cfgC1.cacheKeyPfx.length = 513 := by decide
  omega

/-- C2: the cache key is a pure deterministic function of the resolved
configuration and the host OS release string: field-for-field equal
configurations and equal release strings give byte-identical keys. -/
theorem c2_cacheKey_deterministic (c1 c2 : Config) (r1 r2 : String)
    (h1 : c1.host = c2.host) (h2 : c1.target = c2.target) (h3 : c1.version = c2.version)
    (h4 : c1.wasm = c2.wasm) (h5 : c1.arch = c2.arch) (h6 : c1.dir = c2.dir)
    (h7 : c1.modules = c2.modules) (h8 : c1.archives = c2.archives)
    (h9 : c1.tools = c2.tools) (h10 : c1.addToolsToPath = c2.addToolsToPath)
    (h11 : c1.extra = c2.extra) (h12 : c1.src = c2.src)
    (h13 : c1.srcArchives = c2.srcArchives) (h14 : c1.doc = c2.doc)
    (h15 : c1.docArchives = c2.docArchives) (h16 : c1.docModules = c2.docModules)
    (h17 : c1.examples = c2.examples) (h18 : c1.exampleArchives = c2.exampleArchives)
    (h19 : c1.exampleModules = c2.exampleModules) (h20 : c1.installDeps = c2.installDeps)
    (h21 : c1.cache = c2.cache) (h22 : c1.cacheKeyPfx = c2.cacheKeyPfx)
    (h23 : c1.isInstallQtBinaries = c2.isInstallQtBinaries) (h24 : c1.setEnv = c2.setEnv)
    (h25 : c1.aqtSource = c2.aqtSource) (h26 : c1.aqtVersion = c2.aqtVersion)
    (h27 : c1.py7zrVersion = c2.py7zrVersion) (hr : r1 = r2) :
    cacheKey c1 r1 = cacheKey c2 r2 := by
  have hc : c1 = c2 := by
    cases c1
    cases c2
    simp_all
  rw [hc, hr]

/-- Witness for C2 at a concrete configuration. -/
theorem c2_witness : cacheKey cfgW7 "6.8.0-generic" = cacheKey cfgW7 "6.8.0-generic" :=
  c2_cacheKey_deterministic cfgW7 cfgW7 "6.8.0-generic" "6.8.0-generic"
    rfl rfl rfl rfl rfl rfl rfl rfl rfl rfl rfl rfl rfl rfl
    rfl rfl rfl rfl rfl rfl rfl rfl rfl rfl rfl rfl rfl rfl

/-- C8 (amended): when the pre-existing value of the library-path or
pkg-config-path variable is non-empty, the published value is the old
value, a colon, and the new path; when the variable is unset or set to
the empty string (JavaScript truthiness treats both alike), the
published value is exactly the new path. -/
theorem c8_env_append (old : Option String) (qtPath : String) :
    (∀ o, old = some o → o ≠ "" →
      publishedLdLibraryPath old qtPath = o ++ ":" ++ (qtPath ++ "/lib") ∧
      publishedPkgConfigPath old qtPath = o ++ ":" ++ (qtPath ++ "/lib/pkgconfig")) ∧
    ((old = Option.none ∨ old = some "") →
      publishedLdLibraryPath old qtPath = qtPath ++ "/lib" ∧
      publishedPkgConfigPath old qtPath = qtPath ++ "/lib/pkgconfig") := by
  constructor
  · rintro o rfl ho
    constructor <;>
      simp [publishedLdLibraryPath, publishedPkgConfigPath, setOrAppendEnvVar, ho]
  · rintro (rfl | rfl) <;> constructor <;>
      simp [publishedLdLibraryPath, publishedPkgConfigPath, setOrAppendEnvVar]

/-- Witness for C8: appending to a non-empty `LD_LIBRARY_PATH` and
publishing a fresh `PKG_CONFIG_PATH`. -/
theorem c8_witness :
    publishedLdLibraryPath (some "/usr/lib") "/w/Qt/6.5.0/gcc_64" =
      "/usr/lib:/w/Qt/6.5.0/gcc_64/lib" ∧
    publishedPkgConfigPath Option.none "/w/Qt/6.5.0/gcc_64" =
      "/w/Qt/6.5.0/gcc_64/lib/pkgconfig" := by
  have h1 := (c8_env_append (some "/usr/lib") "/w/Qt/6.5.0/gcc_64").1 "/usr/lib" rfl (by decide)
  have h2 := (c8_env_append Option.none "/w/Qt/6.5.0/gcc_64").2 (Or.inl rfl)
  refine ⟨?_, ?_⟩
  · rw [h1.1]
    decide
  · rw [h2.2]
    decide

/-- Counterexample for C8 as stated: a variable whose pre-existing value
is the empty string is replaced, not colon-appended. -/
theorem c8_counterexample :
    setOrAppendEnvVar (some "") "/w/Qt/6.5.0/gcc_64/lib" = "/w/Qt/6.5.0/gcc_64/lib" ∧
    "" ++ ":" ++ "/w/Qt/6.5.0/gcc_64/lib" ≠ "/w/Qt/6.5.0/gcc_64/lib" := by
  exact ⟨rfl, by decide⟩

theorem resolveArch_err_of_unparseable (target : TargetOs) (host : HostOs) {version : String}
    (hv : parseSemver version = Option.none)
    (h : target = .android ∨ host = .windows) :
    ∃ e, resolveArch target host version "" = .error e := by
  by_cases ht : target = .android
  · subst ht
    exact ⟨"Invalid argument not valid semver ('" ++ version ++ "' received)",
      by simp [resolveArch, cmpE, hv]⟩
  · have hw : host = .windows := h.resolve_left ht
    subst hw
    exact ⟨"Invalid argument not valid semver ('" ++ version ++ "' received)",
      by simp [resolveArch, cmpE, hv, ht]⟩

theorem resolveArch_ok_of_parse (target : TargetOs) (host : HostOs) {version : String}
    {pv : Semver} (hpv : parseSemver version = some pv) (rawArch : String) :
    ∃ a, resolveArch target host version rawArch = .ok a := by
  by_cases hra : rawArch = ""
  · subst hra
    by_cases ht : target = .android
    · subst ht
      rw [resolveArch_android host hpv]
      exact ⟨_, rfl⟩
    · by_cases hh : host = .windows
      · subst hh
        rw [resolveArch_windows target ht hpv]
        exact ⟨_, rfl⟩
      · rw [resolveArch_other target host version ht hh]
        exact ⟨_, rfl⟩
  · exact ⟨rawArch, resolveArch_nonempty _ _ _ _ hra⟩

/-- C5 (amended): construction is atomic, but the `version` input is
validated only where the arch-defaulting ladder needs a semantic-version
comparison: with an empty raw `arch` and target `android` (or a host
that resolves to `windows`), a malformed version makes construction
fail; with a non-empty raw `arch` and valid enum inputs, construction
succeeds for any version string, storing it verbatim. -/
theorem c5_version_validation (raw : RawInputs) (amb : Ambient) :
    (parseSemver raw.version = Option.none → raw.arch = "" →
      (raw.target = "android" ∨
        (validTargetRaw raw.target = true ∧
          (raw.host = "windows" ∨ (raw.host = "" ∧ amb.platform = "win32")))) →
      ∃ msg, mkInputs raw amb = .error msg) ∧
    (validHostRaw raw.host = true → validTargetRaw raw.target = true →
      validWasmRaw raw.wasm = true → raw.arch ≠ "" →
      (raw.dir ≠ "" ∨ amb.runnerWorkspace ≠ "") →
      ∃ c, mkInputs raw amb = .ok c ∧ c.version = raw.version) := by
  constructor
  · intro hv harch hcase
    by_cases hhost : validHostRaw raw.host = true
    · obtain ⟨host, hh⟩ := resolveHost_ok_of_valid raw.host amb.platform hhost
      have htv : validTargetRaw raw.target = true := by
        rcases hcase with h | h
        · rw [h]; decide
        · exact h.1
      obtain ⟨target, ht⟩ := resolveTarget_ok_of_valid raw.target htv
      by_cases hwasm : validWasmRaw raw.wasm = true
      · obtain ⟨wasm, hw⟩ := resolveWasm_ok_of_valid raw.wasm hwasm
        have harr : target = .android ∨ host = .windows := by
          rcases hcase with h | h
          · left
            rw [h] at ht
            simpa [resolveTarget] using ht.symm
          · right
            rcases h.2 with h2 | h2
            · rw [h2] at hh
              simpa [resolveHost] using hh.symm
            · rw [h2.1] at hh
              rw [resolveHost_empty] at hh
              have : platformHost amb.platform = .windows := by
                simp [platformHost, h2.2]
              rw [this] at hh
              simpa using hh.symm
        obtain ⟨e, he⟩ := resolveArch_err_of_unparseable target host hv harr
        rw [← harch] at he
        refine ⟨e, ?_⟩
        simp only [mkInputs, hh, ht, hw, he]
      · have hwf : validWasmRaw raw.wasm = false := by
          simpa using hwasm
        refine ⟨wasmErrMsg raw.wasm, ?_⟩
        simp only [mkInputs, hh, ht, resolveWasm_err raw.wasm hwf]
    · have hhf : validHostRaw raw.host = false := by
        simpa using hhost
      refine ⟨hostErrMsg raw.host, ?_⟩
      simp only [mkInputs, resolveHost_err raw.host amb.platform hhf]
  · intro hhost htarget hwasm harch hdir
    obtain ⟨host, hh⟩ := resolveHost_ok_of_valid raw.host amb.platform hhost
    obtain ⟨target, ht⟩ := resolveTarget_ok_of_valid raw.target htarget
    obtain ⟨wasm, hw⟩ := resolveWasm_ok_of_valid raw.wasm hwasm
    obtain ⟨dirBase, hd⟩ := resolveDirBase_ok raw.dir amb.runnerWorkspace hdir
    have ha := resolveArch_nonempty target host raw.version raw.arch harch
    exact ⟨configOf raw host target wasm raw.arch dirBase,
      mkInputs_eq_configOf raw amb host target wasm raw.arch dirBase hh ht hw ha hd, rfl⟩

/-- Witness for C5: an unparseable version with target android fails;
the same unparseable version with an explicit arch succeeds. -/
theorem c5_witness :
    (∃ msg, mkInputs rawW5 ambLinux = .error msg) ∧
    (∃ c, mkInputs rawC5 ambLinux = .ok c ∧ c.version = rawC5.version) :=
  ⟨(c5_version_validation rawW5 ambLinux).1 (by decide) rfl (Or.inl rfl),
   (c5_version_validation rawC5 ambLinux).2 (by decide) (by decide) (by decide)
     (by decide) (Or.inl (by decide))⟩

/-- Counterexample for C5 as stated: an empty `version` does not fail
construction when the other inputs avoid every version comparison (here
a non-empty `arch`), so construction does not fail "for every
combination of the other inputs". -/
theorem c5_counterexample :
    rawC5.version = "" ∧ ∃ c, mkInputs rawC5 ambLinux = .ok c := by
  exact ⟨rfl, ⟨_, rfl⟩⟩

/-- C6: construction fails with a validation error naming the offending
field whenever the raw `target` is not one of desktop/android/ios or the
raw `wasm` is not one of none/singlethread/multithread (an invalid
`host` is reported first, naming `host`); an empty raw `host` does not
itself fail but falls back to the ambient platform mapping
windows/mac/linux. -/
theorem c6_enum_validation (raw : RawInputs) (amb : Ambient) :
    ((validTargetRaw raw.target = false ∨ validWasmRaw raw.wasm = false) →
      ∃ msg, mkInputs raw amb = .error msg ∧
        ((validHostRaw raw.host = false ∧ msg = hostErrMsg raw.host) ∨
         (validHostRaw raw.host = true ∧ validTargetRaw raw.target = false ∧
           msg = targetErrMsg raw.target) ∨
         (validHostRaw raw.host = true ∧ validTargetRaw raw.target = true ∧
           validWasmRaw raw.wasm = false ∧ msg = wasmErrMsg raw.wasm))) ∧
    (raw.host = "" →
      (∀ c, mkInputs raw amb = .ok c → c.host = platformHost amb.platform) ∧
      (validTargetRaw raw.target = true → validWasmRaw raw.wasm = true →
        (raw.arch ≠ "" ∨ (parseSemver raw.version).isSome) →
        (raw.dir ≠ "" ∨ amb.runnerWorkspace ≠ "") →
        ∃ c, mkInputs raw amb = .ok c ∧ c.host = platformHost amb.platform)) := by
  constructor
  · intro hbad
    by_cases hhost : validHostRaw raw.host = true
    · obtain ⟨host, hh⟩ := resolveHost_ok_of_valid raw.host amb.platform hhost
      by_cases htarget : validTargetRaw raw.target = true
      · have hwf : validWasmRaw raw.wasm = false := by
          rcases hbad with h | h
          · rw [htarget] at h
            exact absurd h (by simp)
          · exact h
        refine ⟨wasmErrMsg raw.wasm, ?_, Or.inr (Or.inr ⟨hhost, htarget, hwf, rfl⟩)⟩
        obtain ⟨target, ht⟩ := resolveTarget_ok_of_valid raw.target htarget
        simp only [mkInputs, hh, ht, resolveWasm_err raw.wasm hwf]
      · have htf : validTargetRaw raw.target = false := by simpa using htarget
        refine ⟨targetErrMsg raw.target, ?_, Or.inr (Or.inl ⟨hhost, htf, rfl⟩)⟩
        simp only [mkInputs, hh, resolveTarget_err raw.target htf]
    · have hhf : validHostRaw raw.host = false := by simpa using hhost
      refine ⟨hostErrMsg raw.host, ?_, Or.inl ⟨hhf, rfl⟩⟩
      simp only [mkInputs, resolveHost_err raw.host amb.platform hhf]
  · intro hempty
    constructor
    · intro c hok
      obtain ⟨host, target, wasm, arch, dirBase, h1, _, _, _, _, rfl⟩ :=
        mkInputs_ok_inv raw amb c hok
      rw [hempty, resolveHost_empty] at h1
      have : platformHost amb.platform = host := by
        simpa using h1
      exact this.symm
    · intro htarget hwasm harch hdir
      have hh : resolveHost raw.host amb.platform = .ok (platformHost amb.platform) := by
        rw [hempty]
        exact resolveHost_empty amb.platform
      obtain ⟨target, ht⟩ := resolveTarget_ok_of_valid raw.target htarget
      obtain ⟨wasm, hw⟩ := resolveWasm_ok_of_valid raw.wasm hwasm
      obtain ⟨dirBase, hd⟩ := resolveDirBase_ok raw.dir amb.runnerWorkspace hdir
      have ha : ∃ a, resolveArch target (platformHost amb.platform) raw.version raw.arch = .ok a := by
        rcases harch with h | h
        · exact ⟨raw.arch, resolveArch_nonempty _ _ _ _ h⟩
        · obtain ⟨pv, hpv⟩ := Option.isSome_iff_exists.mp h
          exact resolveArch_ok_of_parse target (platformHost amb.platform) hpv raw.arch
      obtain ⟨arch, ha⟩ := ha
      exact ⟨configOf raw (platformHost amb.platform) target wasm arch dirBase,
        mkInputs_eq_configOf raw amb _ target wasm arch dirBase hh ht hw ha hd, rfl⟩

/-- Witness for C6: an invalid `target` fails; an empty `host` on a
Linux platform resolves to `linux`. -/
theorem c6_witness :
    (∃ msg, mkInputs rawW6 ambLinux = .error msg) ∧
    (∃ c, mkInputs rawW6b ambLinux = .ok c ∧ c.host = platformHost ambLinux.platform) := by
  refine ⟨?_, ?_⟩
  · obtain ⟨msg, hmsg, _⟩ := (c6_enum_validation rawW6 ambLinux).1 (Or.inl (by decide))
    exact ⟨msg, hmsg⟩
  · exact ((c6_enum_validation rawW6b ambLinux).2 rfl).2 (by decide) (by decide)
      (Or.inl (by decide)) (Or.inl (by decide))

/-- C7: an empty raw `tools` input resolves to the empty tools sequence,
so no `install-tool` invocation is issued and `IQTA_TOOLS` is not
exported, even when `setEnv` is true. -/
theorem c7_empty_tools (raw : RawInputs) (amb : Ambient) (c : Config) (ra : RunAmbient)
    (eff : RunEffects) (hok : mkInputs raw amb = .ok c) (htools : raw.tools = "")
    (heff : runEffects c ra = .ok eff) :
    c.tools = [] ∧ eff.toolInstallArgs = [] ∧ eff.iqtaToolsExported = false := by
  obtain ⟨host, target, wasm, arch, dirBase, _, _, _, _, _, rfl⟩ :=
    mkInputs_ok_inv raw amb c hok
  have htl : (configOf raw host target wasm arch dirBase).tools = [] := by
    simp [configOf, getStringArrayInput, htools]
  obtain ⟨hiq, _, hip⟩ := runEffects_ok_inv _ ra eff heff
  refine ⟨htl, ?_, ?_⟩
  · by_cases hhit : ((configOf raw host target wasm arch dirBase).cache &&
        ra.cacheRestoreHit) = true
    · rw [instPart_hit _ _ hhit] at hip
      have := hip.symm
      simp only [Except.ok.injEq] at this
      exact congrArg (fun p => p.2.2) this
    · rw [instPart_miss _ _ (by simpa using hhit)] at hip
      rcases hq : qtPart (configOf raw host target wasm arch dirBase)
          ra.autodesktopSupported with e | qw
      · rw [hq] at hip
        exact absurd hip (by simp)
      · rcases qw with ⟨qt, warns⟩
        rw [hq] at hip
        simp only [Except.ok.injEq] at hip
        have h3 := congrArg (fun p => p.2.2) hip
        simp only at h3
        rw [← h3, htl]
        rfl
  · rw [hiq, htl]
    rfl

/-- Witness for C7 at concrete inputs with `setEnv` true. -/
theorem c7_witness :
    rawW7.tools = "" ∧ cfgW7.setEnv = true ∧
    cfgW7.tools = [] ∧ effW7.toolInstallArgs = [] ∧ effW7.iqtaToolsExported = false := by
  have h := c7_empty_tools rawW7 ambLinux cfgW7 raMiss effW7 (by decide) rfl (by decide)
  exact ⟨rfl, rfl, h.1, h.2.1, h.2.2⟩

/-- C3: with an empty raw `arch` input, an android target defaults to
"android" exactly when 5.14.0 <= version < 6.0.0 and to "android_armv7"
otherwise; otherwise a windows host takes the version ladder
win64_msvc2022_64 / win64_msvc2019_64 / win64_msvc2013_64 /
win64_msvc2015_64 / win64_msvc2017_64 in that order; otherwise `arch`
stays empty. -/
theorem c3_arch_default (raw : RawInputs) (amb : Ambient) (c : Config) (pv : Semver)
    (hok : mkInputs raw amb = .ok c) (harch : raw.arch = "")
    (hpv : parseSemver raw.version = some pv) :
    (c.target = .android →
      c.arch = (if vGe pv (semverOf 5 14 0) && vLt pv (semverOf 6 0 0)
                then "android" else "android_armv7")) ∧
    (c.target ≠ .android → c.host = .windows →
      c.arch = (if vGe pv (semverOf 6 8 0) then "win64_msvc2022_64"
                else if vGe pv (semverOf 5 15 0) then "win64_msvc2019_64"
                else if vLt pv (semverOf 5 6 0) then "win64_msvc2013_64"
                else if vLt pv (semverOf 5 9 0) then "win64_msvc2015_64"
                else "win64_msvc2017_64")) ∧
    (c.target ≠ .android → c.host ≠ .windows → c.arch = "") := by
  obtain ⟨host, target, wasm, arch, dirBase, h1, h2, h3, h4, h5, rfl⟩ :=
    mkInputs_ok_inv raw amb c hok
  rw [harch] at h4
  refine ⟨?_, ?_, ?_⟩
  · intro ht
    have ht' : target = .android := ht
    subst ht'
    rw [resolveArch_android host hpv] at h4
    have ha : (if vGe pv (semverOf 5 14 0) && vLt pv (semverOf 6 0 0)
        then "android" else "android_armv7") = arch := by
      simpa using h4
    exact ha.symm
  · intro ht hh
    have ht' : target ≠ .android := ht
    have hh' : host = .windows := hh
    subst hh'
    rw [resolveArch_windows target ht' hpv] at h4
    have ha := h4
    simp only [Except.ok.injEq] at ha
    exact ha.symm
  · intro ht hh
    have ht' : target ≠ .android := ht
    have hh' : host ≠ .windows := hh
    rw [resolveArch_other target host raw.version ht' hh'] at h4
    have ha : ("" : String) = arch := by
      simpa using h4
    exact ha.symm

/-- Witness for C3: target android with version 5.14.0 resolves arch to
"android". -/
theorem c3_witness :
    mkInputs rawW3 ambLinux = .ok cfgW3 ∧ rawW3.arch = "" ∧
    parseSemver rawW3.version = some (semverOf 5 14 0) ∧ cfgW3.arch = "android" := by
  have hok : mkInputs rawW3 ambLinux = .ok cfgW3 := by decide
  have hpv : parseSemver rawW3.version = some (semverOf 5 14 0) := by decide
  have h := (c3_arch_default rawW3 ambLinux cfgW3 (semverOf 5 14 0) hok rfl hpv).1 rfl
  refine ⟨hok, rfl, hpv, ?_⟩
  rw [h]
  decide

/-- C9 (amended): `isInstallQtBinaries` is true iff neither raw
`tools-only` nor raw `no-qt-binaries` equals "true" case-insensitively;
the `qtPath` output publication happens exactly when the flag is true,
and the `install-qt` invocation happens exactly when the flag is true
and no internal cache hit occurred (a cache hit skips the whole
installation block). -/
theorem c9_install_flag (raw : RawInputs) (amb : Ambient) (c : Config) (ra : RunAmbient)
    (hok : mkInputs raw amb = .ok c) :
    (c.isInstallQtBinaries = true ↔
      ¬(lowerAscii raw.toolsOnly = "true") ∧ ¬(lowerAscii raw.noQtBinaries = "true")) ∧
    (∀ eff, runEffects c ra = .ok eff →
      eff.qtPathPublished = c.isInstallQtBinaries ∧
      eff.qtInstallArgs.isSome =
        (c.isInstallQtBinaries && !(c.cache && ra.cacheRestoreHit))) := by
  obtain ⟨host, target, wasm, arch, dirBase, _, _, _, _, _, rfl⟩ :=
    mkInputs_ok_inv raw amb c hok
  constructor
  · simp [configOf, getBoolInput]
  · intro eff heff
    obtain ⟨_, hqt, hip⟩ := runEffects_ok_inv _ ra eff heff
    refine ⟨hqt, ?_⟩
    rcases Bool.eq_false_or_eq_true
        ((configOf raw host target wasm arch dirBase).cache && ra.cacheRestoreHit)
      with hhit | hhit
    · rw [instPart_hit _ _ hhit] at hip
      simp only [Except.ok.injEq] at hip
      have e1 := congrArg (fun p => p.1) hip
      simp only at e1
      rw [hhit, ← e1]
      simp
    · rw [instPart_miss _ _ hhit] at hip
      by_cases hb : (configOf raw host target wasm arch dirBase).isInstallQtBinaries = true
      · rcases hqi : qtInstallStep (configOf raw host target wasm arch dirBase)
            ra.autodesktopSupported with e | aw
        · rw [qtPart, if_pos hb, hqi] at hip
          exact absurd hip (by simp)
        · rcases aw with ⟨args, warns⟩
          rw [qtPart, if_pos hb, hqi] at hip
          simp only [Except.ok.injEq] at hip
          have e1 := congrArg (fun p => p.1) hip
          simp only at e1
          rw [hb, hhit, ← e1]
          rfl
      · have hb' : (configOf raw host target wasm arch dirBase).isInstallQtBinaries = false := by
          simpa using hb
        rw [qtPart, if_neg (by simp [hb'])] at hip
        simp only [Except.ok.injEq] at hip
        have e1 := congrArg (fun p => p.1) hip
        simp only at e1
        rw [hb', hhit, ← e1]
        rfl

/-- Witness for C9: a cache-miss run with the flag true invokes
install-qt, and a cache-hit run with the flag true does not. -/
theorem c9_witness :
    mkInputs rawW7 ambLinux = .ok cfgW7 ∧
    (cfgW7.isInstallQtBinaries = true ↔
      ¬(lowerAscii rawW7.toolsOnly = "true") ∧ ¬(lowerAscii rawW7.noQtBinaries = "true")) ∧
    effW7.qtPathPublished = cfgW7.isInstallQtBinaries ∧
    effW7.qtInstallArgs.isSome =
      (cfgW7.isInstallQtBinaries && !(cfgW7.cache && raMiss.cacheRestoreHit)) ∧
    effHit.qtInstallArgs.isSome =
      (cfgC9.isInstallQtBinaries && !(cfgC9.cache && raHit.cacheRestoreHit)) := by
  have hok : mkInputs rawW7 ambLinux = .ok cfgW7 := by decide
  have h := c9_install_flag rawW7 ambLinux cfgW7 raMiss hok
  have h2 := h.2 effW7 (by decide)
  have hok9 : mkInputs rawC9 ambLinux = .ok cfgC9 := by decide
  have h9 := (c9_install_flag rawC9 ambLinux cfgC9 raHit hok9).2 effHit (by decide)
  exact ⟨hok, h.1, h2.1, h2.2, h9.2⟩

/-- Counterexample for C9 as stated: on a cache-hit run the install-qt
invocation is skipped although `isInstallQtBinaries` is true. -/
theorem c9_counterexample :
    mkInputs rawC9 ambLinux = .ok cfgC9 ∧ cfgC9.isInstallQtBinaries = true ∧
    runEffects cfgC9 raHit = .ok effHit ∧ effHit.qtInstallArgs = Option.none := by
  exact ⟨by decide, rfl, by decide, rfl⟩

/-- C10 (amended): a non-empty all-space `tools` input resolves to a
non-empty sequence of empty strings; `IQTA_TOOLS` is exported exactly
when `setEnv` is true (the export is outside the cache-guarded block);
on runs without an internal cache hit, one `install-tool` invocation per
element is issued, each with an empty tool identifier. -/
theorem c10_space_tools (raw : RawInputs) (amb : Ambient) (c : Config) (ra : RunAmbient)
    (hok : mkInputs raw amb = .ok c) (hne : raw.tools ≠ "")
    (hsp : ∀ ch ∈ raw.tools.data, ch = ' ') :
    c.tools = List.replicate (raw.tools.data.length + 1) "" ∧
    c.tools ≠ [] ∧
    (∀ eff, runEffects c ra = .ok eff →
      eff.iqtaToolsExported = c.setEnv ∧
      ((c.cache && ra.cacheRestoreHit) = false →
        eff.toolInstallArgs = c.tools.map (toolArgsFor c) ∧
        eff.toolInstallArgs ≠ [] ∧
        ∀ args ∈ eff.toolInstallArgs, args.getD 2 "?" = "")) := by
  obtain ⟨host, target, wasm, arch, dirBase, _, _, _, _, _, rfl⟩ :=
    mkInputs_ok_inv raw amb c hok
  have htools : (configOf raw host target wasm arch dirBase).tools =
      List.replicate (raw.tools.data.length + 1) "" := by
    show ((getStringArrayInput raw.tools).map commaToSpace) = _
    rw [getStringArrayInput_all_space raw.tools hne hsp, List.map_replicate]
    rfl
  have hnonempty : (configOf raw host target wasm arch dirBase).tools ≠ [] := by
    rw [htools]
    simp
  refine ⟨htools, hnonempty, ?_⟩
  intro eff heff
  obtain ⟨hiq, _, hip⟩ := runEffects_ok_inv _ ra eff heff
  constructor
  · rw [hiq, htools]
    simp
  · intro hmiss
    rw [instPart_miss _ _ hmiss] at hip
    have hmap : eff.toolInstallArgs =
        (configOf raw host target wasm arch dirBase).tools.map
          (toolArgsFor (configOf raw host target wasm arch dirBase)) := by
      rcases hq : qtPart (configOf raw host target wasm arch dirBase)
          ra.autodesktopSupported with e | qw
      · rw [hq] at hip
        exact absurd hip (by simp)
      · rcases qw with ⟨qt, warns⟩
        rw [hq] at hip
        simp only [Except.ok.injEq] at hip
        have h3 := congrArg (fun p => p.2.2) hip
        simpa using h3.symm
    refine ⟨hmap, ?_, ?_⟩
    · rw [hmap]
      simpa using hnonempty
    · intro args hargs
      rw [hmap, List.mem_map] at hargs
      obtain ⟨t, ht, rfl⟩ := hargs
      rw [htools] at ht
      have ht' : t = "" := List.eq_of_mem_replicate ht
      subst ht'
      show ((toolArgsFor _ "").getD 2 "?") = ""
      simp [toolArgsFor, List.getD]

/-- Witness for C10: a single-space `tools` input on a cache-miss run
with `setEnv` true. -/
theorem c10_witness :
    mkInputs rawW10 ambLinux = .ok cfgW10 ∧ rawW10.tools = " " ∧
    cfgW10.tools = ["", ""] ∧
    effW10.iqtaToolsExported = cfgW10.setEnv ∧
    effW10.toolInstallArgs ≠ [] ∧ toolArgs0 ∈ effW10.toolInstallArgs ∧
    toolArgs0.getD 2 "?" = "" := by
  have hok : mkInputs rawW10 ambLinux = .ok cfgW10 := by decide
  have h := c10_space_tools rawW10 ambLinux cfgW10 raMiss hok (by decide) (by decide)
  have h3 := h.2.2 effW10 (by decide)
  have h4 := h3.2 (by decide)
  refine ⟨hok, rfl, ?_, h3.1, h4.2.1, ?_, ?_⟩
  · rw [h.1]
    decide
  · decide
  · exact h4.2.2 toolArgs0 (by decide)

/-- Counterexample for C10 as stated: with a whitespace-only `tools`
input the tools sequence is non-empty, yet on a cache-hit run no
`install-tool` invocation is issued. -/
theorem c10_counterexample :
    mkInputs rawC10 ambLinux = .ok cfgC10 ∧ cfgC10.tools ≠ [] ∧
    runEffects cfgC10 raHit = .ok effHit ∧ effHit.toolInstallArgs = [] := by
  exact ⟨by decide, by decide, by decide, rfl⟩

/-- C4 (amended): on a cache-miss run with binary installation
requested and wasm requested, the `install-qt` argument list contains
the consecutive pair `--wasm <mode>` iff the version is at least 6.7.0
and the fork indicator holds (aqtSource contains "Kidev/aqtinstall" or
aqtVersion = "==3.2.*"), provided the literal "--wasm" does not itself
occur among the user-supplied arch/modules/archives/extra values, which
are spliced verbatim into the same list; in every other wasm-requested
case a warning is emitted and no "--wasm" appears in the argument
list. -/
theorem c4_wasm_flag (raw : RawInputs) (amb : Ambient) (c : Config) (ra : RunAmbient)
    (pv : Semver) (eff : RunEffects)
    (hmk : mkInputs raw amb = .ok c)
    (hbin : c.isInstallQtBinaries = true)
    (hwasm : c.wasm ≠ WasmMode.none)
    (hpv : parseSemver c.version = some pv)
    (hx : "--wasm" ∉ c.extra) (hm : "--wasm" ∉ c.modules) (ha : "--wasm" ∉ c.archives)
    (harch : c.arch ≠ "--wasm")
    (hrun : runEffects c ra = .ok eff)
    (hmiss : (c.cache && ra.cacheRestoreHit) = false) :
    ∃ args, eff.qtInstallArgs = some args ∧
      ((["--wasm", wasmModeStr c.wasm] <:+: args) ↔
        (vGe pv (semverOf 6 7 0) = true ∧ usingKidevFork c = true)) ∧
      (¬(vGe pv (semverOf 6 7 0) = true ∧ usingKidevFork c = true) →
        eff.wasmWarnings ≠ [] ∧ "--wasm" ∉ args) := by
  have hdir : c.dir ≠ "--wasm" := by
    obtain ⟨host, target, wasm, arch, dirBase, _, _, _, _, _, rfl⟩ :=
      mkInputs_ok_inv raw amb c hmk
    exact append_Qt_ne_wasmFlag dirBase
  obtain ⟨_, _, hip⟩ := runEffects_ok_inv c ra eff hrun
  rw [instPart_miss c ra hmiss] at hip
  have hnb := wasmFlag_not_mem_qtBaseArgs c ra.autodesktopSupported pv hpv harch hdir hm ha
  have hwb := wasmBlock_eval c (qtBaseArgs c ra.autodesktopSupported) pv hwasm hpv
  by_cases hcond : vGe pv (semverOf 6 7 0) = true ∧ usingKidevFork c = true
  · rw [hcond.1, hcond.2] at hwb
    simp only [Bool.and_self, if_true] at hwb
    have hqi : qtInstallStep c ra.autodesktopSupported =
        .ok ((qtBaseArgs c ra.autodesktopSupported ++ ["--wasm", wasmModeStr c.wasm])
          ++ c.extra, []) := by
      rw [qtInstallStep, hwb]
    rw [qtPart, if_pos hbin, hqi] at hip
    obtain ⟨e1, e2, e3⟩ :
        some ((qtBaseArgs c ra.autodesktopSupported ++ ["--wasm", wasmModeStr c.wasm])
            ++ c.extra) = eff.qtInstallArgs ∧
          ([] : List String) = eff.wasmWarnings ∧
          c.tools.map (toolArgsFor c) = eff.toolInstallArgs := by
      simpa using hip
    refine ⟨_, e1.symm, ?_, ?_⟩
    · constructor
      · intro _
        exact hcond
      · intro _
        exact ⟨qtBaseArgs c ra.autodesktopSupported, c.extra, by simp⟩
    · intro hc
      exact absurd hcond hc
  · have key : ∀ w : String,
        wasmBlock c (qtBaseArgs c ra.autodesktopSupported) =
          .ok (qtBaseArgs c ra.autodesktopSupported, [w]) →
        ∃ args, eff.qtInstallArgs = some args ∧
          ((["--wasm", wasmModeStr c.wasm] <:+: args) ↔
            (vGe pv (semverOf 6 7 0) = true ∧ usingKidevFork c = true)) ∧
          (¬(vGe pv (semverOf 6 7 0) = true ∧ usingKidevFork c = true) →
            eff.wasmWarnings ≠ [] ∧ "--wasm" ∉ args) := by
      intro w hwb'
      have hqi : qtInstallStep c ra.autodesktopSupported =
          .ok (qtBaseArgs c ra.autodesktopSupported ++ c.extra, [w]) := by
        rw [qtInstallStep, hwb']
      rw [qtPart, if_pos hbin, hqi] at hip
      obtain ⟨e1, e2, e3⟩ :
          some (qtBaseArgs c ra.autodesktopSupported ++ c.extra) = eff.qtInstallArgs ∧
            [w] = eff.wasmWarnings ∧
            c.tools.map (toolArgsFor c) = eff.toolInstallArgs := by
        simpa using hip
      have hnotmem : "--wasm" ∉ qtBaseArgs c ra.autodesktopSupported ++ c.extra := by
        intro hmem
        rcases List.mem_append.mp hmem with h | h
        · exact hnb h
        · exact hx h
      refine ⟨_, e1.symm, ?_, ?_⟩
      · constructor
        · intro hinf
          exfalso
          exact hnotmem (hinf.subset (by simp))
        · intro hc
          exact absurd hc hcond
      · intro _
        refine ⟨?_, hnotmem⟩
        rw [← e2]
        simp
    rcases Bool.eq_false_or_eq_true (usingKidevFork c) with hf | hf
    · have hge : vGe pv (semverOf 6 7 0) = false := by
        rcases Bool.eq_false_or_eq_true (vGe pv (semverOf 6 7 0)) with h | h
        · exact absurd ⟨h, hf⟩ hcond
        · exact h
      rw [hge, hf] at hwb
      simp at hwb
      exact key qtVersionWarning hwb
    · rw [hf] at hwb
      simp at hwb
      exact key forkWarning hwb

/-- Witness for C4: version 6.7.0 with the fork constraint "==3.2.*"
produces the `--wasm multithread` pair. -/
theorem c4_witness :
    mkInputs rawW4 ambLinux = .ok cfgW4 ∧ runEffects cfgW4 raMiss = .ok effW4 ∧
    ∃ args, effW4.qtInstallArgs = some args ∧
      ((["--wasm", wasmModeStr cfgW4.wasm] <:+: args) ↔
        (vGe (semverOf 6 7 0) (semverOf 6 7 0) = true ∧ usingKidevFork cfgW4 = true)) ∧
      (¬(vGe (semverOf 6 7 0) (semverOf 6 7 0) = true ∧ usingKidevFork cfgW4 = true) →
        effW4.wasmWarnings ≠ [] ∧ "--wasm" ∉ args) := by
  have hok : mkInputs rawW4 ambLinux = .ok cfgW4 := by decide
  have hrun : runEffects cfgW4 raMiss = .ok effW4 := by decide
  exact ⟨hok, hrun,
    c4_wasm_flag rawW4 ambLinux cfgW4 raMiss (semverOf 6 7 0) effW4 hok (by decide)
      (by decide) (by decide) (by decide) (by decide) (by decide) (by decide) hrun
      (by decide)⟩

/-- Counterexample for C4 as stated: a configuration with
`extra = ["--wasm", "multithread"]` and no fork indicator still has the
pair `--wasm multithread` in the install-qt argument list, so the
claimed equivalence fails. -/
theorem c4_counterexample :
    mkInputs rawC4 ambLinux = .ok cfgC4 ∧
    cfgC4.isInstallQtBinaries = true ∧ cfgC4.wasm ≠ WasmMode.none ∧
    runEffects cfgC4 raMiss = .ok effC4 ∧
    effC4.qtInstallArgs = some qtArgsC4 ∧
    ["--wasm", wasmModeStr cfgC4.wasm] <:+: qtArgsC4 ∧
    usingKidevFork cfgC4 = false := by
  refine ⟨by decide, rfl, by decide, by decide, rfl, ?_, by decide⟩
  exact ⟨["linux", "desktop", "6.0.0", "--outputdir", "w/Qt"], [], by decide⟩
